import Mathlib

/-!
CitadelX smart contracts: a shallow embedding in Lean 4.

This file embeds the state and the state-changing methods of the CitadelX
Algorand smart contracts (`smart_contracts/citadel_dao/contract.py`,
`old_contract.py`, `governance.py`, `treasury.py`, `nft_moderator.py`, and
`smart_contracts/moderator_purchase/contract.py`) and proves properties of
them.

Modelling conventions:
* Algorand addresses are `Nat`; box maps and `GlobalState` slots become
  fields of an explicit state record; a `BoxMap` becomes `key → Option value`
  (or an association list where sums over entries are needed).
* `UInt64` values are `Nat` (the AVM panics on overflow/underflow instead of
  wrapping, so the contracts never rely on modular arithmetic); the treasury
  balance is an `Int` so that freedom from underflow is expressible.
* A failing `assert` aborts the transaction, so a method is a function to
  `Except String`, the payload of `.error` being the assert message; on
  `.error` the chain state is unchanged, which the `step` functions reflect
  by returning the input state.
* `Global.latest_timestamp` and `Txn.sender` are explicit `now`/`sender`
  arguments; `Global.current_application_address` is an explicit `app`
  argument where a method compares a payment's receiver to it.
-/

set_option linter.unusedVariables false

namespace CitadelX

/-- Write one key of a finite map modelled as a function (a `BoxMap` write). -/
def fset {α β : Type} [DecidableEq α] (m : α → Option β) (k : α) (v : β) :
    α → Option β :=
  fun k' => if k' = k then some v else m k'

/-- Reading `fset` at the written key. -/
theorem fset_same {α β : Type} [DecidableEq α] (m : α → Option β) (k : α) (v : β) :
    fset m k v k = some v := by
  simp [fset]

/-- Reading `fset` at another key. -/
theorem fset_other {α β : Type} [DecidableEq α] (m : α → Option β) (k k' : α) (v : β)
    (h : k' ≠ k) : fset m k v k' = m k' := by
  simp [fset, h]

/-- An entry of the map after a write is the written value or an old entry. -/
theorem fset_cases {α β : Type} [DecidableEq α] {m : α → Option β} {k k' : α}
    {v w : β} (h : fset m k v k' = some w) : w = v ∨ m k' = some w := by
  by_cases hk : k' = k
  · subst hk
    rw [fset_same] at h
    exact Or.inl (Option.some.inj h).symm
  · rw [fset_other _ _ _ _ hk] at h
    exact Or.inr h

/-- Whether an `Except`-valued method call succeeded. -/
def okb {ε α : Type} : Except ε α → Bool
  | .ok _ => true
  | .error _ => false

/-- The success payload of an `Except`-valued method call, if any. -/
def resOf {ε α : Type} : Except ε α → Option α
  | .ok a => some a
  | .error _ => none

/-- A payment transaction grouped with an application call. -/
structure PaymentTxn where
  sender : Nat
  receiver : Nat
  amount : Nat
deriving DecidableEq, Repr

/-! ## The monolithic `CitadelDAO` contract (`citadel_dao/contract.py`) -/

namespace MonoDAO

/-- The `DAOConfig` struct of `contract.py`. -/
structure DAOConfig where
  min_members : Nat
  min_stake : Nat
  voting_period : Nat
  activation_threshold : Nat
  creator : Nat
deriving DecidableEq, Repr

/-- The `ProposalData` struct of `contract.py`; `dao_id` is the DAO counter value
behind the `b"dao_" + itob(counter)` box key. -/
structure ProposalData where
  dao_id : Nat
  title : String
  description : String
  creator : Nat
  required_votes : Nat
  current_votes : Nat
  status : String
  created_at : Nat
deriving DecidableEq, Repr

/-- Global and box state of the monolithic `CitadelDAO` contract. DAO ids and
proposal ids are the counter values behind the `b"dao_"`/`b"prop_"` box keys;
`member_stakes` and `votes` are keyed by (id, address) mirroring the
concatenated box keys. -/
structure State where
  dao_configs : Nat → Option DAOConfig
  proposals : Nat → Option ProposalData
  member_stakes : Nat × Nat → Option Nat
  votes : Nat × Nat → Option Nat
  treasury_balances : Nat → Option Nat
  dao_counter : Nat
  proposal_counter : Nat

/-- Fresh contract state (`__init__`). -/
def emptyState : State where
  dao_configs := fun _ => none
  proposals := fun _ => none
  member_stakes := fun _ => none
  votes := fun _ => none
  treasury_balances := fun _ => none
  dao_counter := 0
  proposal_counter := 0

/-- Method `CitadelDAO.create_dao_proposal`. Returns the new DAO id. -/
def create_dao_proposal (s : State) (sender now app : Nat)
    (dao_name description category : String)
    (min_members min_stake voting_period activation_threshold : Nat)
    (payment_txn : PaymentTxn) : Except String (State × Nat) :=
  if ¬ (min_members ≥ 2) then .error "Minimum 2 members required for DAO"
  else if ¬ (min_stake ≥ 100000) then .error "Minimum stake must be at least 0.1 ALGO"
  else if ¬ (activation_threshold ≥ 51 ∧ activation_threshold ≤ 100) then
    .error "Threshold must be between 51-100"
  else if ¬ (voting_period ≥ 86400) then .error "Voting period must be at least 1 day"
  else if ¬ (payment_txn.receiver = app) then .error "Payment must be to contract"
  else if ¬ (payment_txn.sender = sender) then .error "Payment sender must match transaction sender"
  else if ¬ (payment_txn.amount ≥ min_stake) then .error "Initial payment must meet minimum stake"
  else
    let dao_counter := s.dao_counter + 1
    let dao_config : DAOConfig :=
      { min_members := min_members
        min_stake := min_stake
        voting_period := voting_period
        activation_threshold := activation_threshold
        creator := sender }
    .ok ({ s with
            dao_counter := dao_counter
            dao_configs := fset s.dao_configs dao_counter dao_config
            member_stakes := fset s.member_stakes (dao_counter, sender) payment_txn.amount
            treasury_balances := fset s.treasury_balances dao_counter payment_txn.amount },
         dao_counter)

/-- Method `CitadelDAO.join_dao`. -/
def join_dao (s : State) (sender now app : Nat) (dao_id : Nat)
    (payment_txn : PaymentTxn) : Except String State :=
  match s.dao_configs dao_id with
  | none => .error "DAO does not exist"
  | some dao_config =>
    if ¬ (payment_txn.receiver = app) then .error "Payment must be to contract"
    else if ¬ (payment_txn.sender = sender) then .error "Payment sender must match transaction sender"
    else if ¬ (payment_txn.amount ≥ dao_config.min_stake) then .error "Payment must meet minimum stake"
    else
      match s.member_stakes (dao_id, sender) with
      | some _ => .error "Already a member of this DAO"
      | none =>
        let current_treasury := (s.treasury_balances dao_id).getD 0
        .ok { s with
              member_stakes := fset s.member_stakes (dao_id, sender) payment_txn.amount
              treasury_balances :=
                fset s.treasury_balances dao_id (current_treasury + payment_txn.amount) }

/-- Method `CitadelDAO.create_proposal`. Returns the new proposal id. The stored
`required_votes` is the AVM `//` of `min_members * activation_threshold`
by `100`, i.e. the floor. -/
def create_proposal (s : State) (sender now : Nat) (dao_id : Nat)
    (proposal_title proposal_description moderator_category : String) :
    Except String (State × Nat) :=
  match s.dao_configs dao_id with
  | none => .error "DAO does not exist"
  | some dao_config =>
    match s.member_stakes (dao_id, sender) with
    | none => .error "Only DAO members can create proposals"
    | some _ =>
      let proposal_counter := s.proposal_counter + 1
      let required_votes := dao_config.min_members * dao_config.activation_threshold / 100
      let proposal_data : ProposalData :=
        { dao_id := dao_id
          title := proposal_title
          description := proposal_description
          creator := sender
          required_votes := required_votes
          current_votes := 0
          status := "active"
          created_at := now }
      .ok ({ s with
              proposal_counter := proposal_counter
              proposals := fset s.proposals proposal_counter proposal_data },
           proposal_counter)

/-- Method `CitadelDAO.vote_on_proposal`. `now` is `Global.latest_timestamp`, which
the method has access to but never reads. -/
def vote_on_proposal (s : State) (sender now : Nat) (proposal_id : Nat)
    (vote_yes : Bool) : Except String State :=
  match s.proposals proposal_id with
  | none => .error "Proposal does not exist"
  | some proposal_data =>
    if ¬ (proposal_data.status = "active") then .error "Proposal is not active"
    else
      match s.member_stakes (proposal_data.dao_id, sender) with
      | none => .error "Only DAO members can vote"
      | some _ =>
        match s.votes (proposal_id, sender) with
        | some _ => .error "Already voted on this proposal"
        | none =>
          let vote_value : Nat := if vote_yes then 1 else 2
          let proposal_data' :=
            if vote_yes then
              let bumped :=
                { proposal_data with current_votes := proposal_data.current_votes + 1 }
              if bumped.current_votes ≥ bumped.required_votes then
                { bumped with status := "passed" }
              else bumped
            else proposal_data
          .ok { s with
                votes := fset s.votes (proposal_id, sender) vote_value
                proposals := fset s.proposals proposal_id proposal_data' }

/-- Modelled from the spec: `required_votes = ceil(min_members * threshold / 100)`,
the ceiling of the exact rational value, as §4 of the spec words it. -/
def spec_required_votes (min_members threshold : Nat) : Nat :=
  (min_members * threshold + 99) / 100

end MonoDAO

/-! ## The single-DAO `CitadelDAO` contract (`citadel_dao/old_contract.py`) -/

namespace OldDAO

/-- The `DAOInfo` struct of `old_contract.py`. -/
structure DAOInfo where
  name : String
  description : String
  creator : Nat
  min_stake : Nat
  voting_period : Nat
  quorum_threshold : Nat
  created_at : Nat
  is_active : Bool
deriving DecidableEq, Repr

/-- The `Member` struct of `old_contract.py`. -/
structure Member where
  address : Nat
  stake : Nat
  joined_at : Nat
  is_active : Bool
deriving DecidableEq, Repr

/-- Global and box state of `old_contract.py`'s `CitadelDAO`. `members` is the
`BoxMap(Address, Member)` as an association list so that the stakes of all
members can be summed. -/
structure State where
  dao_info : DAOInfo
  treasury_balance : Nat
  member_count : Nat
  total_stake : Nat
  members : List (Nat × Member)
  is_initialized : Bool
deriving DecidableEq, Repr

/-- Look a key up in an association list (a `BoxMap.maybe`). -/
def alookup {β : Type} : List (Nat × β) → Nat → Option β
  | [], _ => none
  | (k', v) :: rest, k => if k' = k then some v else alookup rest k

/-- Write a key of an association list (a `BoxMap` write). -/
def aset {β : Type} : List (Nat × β) → Nat → β → List (Nat × β)
  | [], k, v => [(k, v)]
  | (k', v') :: rest, k, v =>
      if k' = k then (k, v) :: rest else (k', v') :: aset rest k v

/-- Fresh contract state (`__init__`): unset `GlobalState` slots read as zero
values and the member box map is empty. -/
def emptyState : State where
  dao_info :=
    { name := ""
      description := ""
      creator := 0
      min_stake := 0
      voting_period := 0
      quorum_threshold := 0
      created_at := 0
      is_active := false }
  treasury_balance := 0
  member_count := 0
  total_stake := 0
  members := []
  is_initialized := false

/-- Method `CitadelDAO.initialize_dao` of `old_contract.py`. -/
def initialize_dao (s : State) (sender now app : Nat) (name description : String)
    (min_stake voting_period quorum_threshold : Nat)
    (initial_payment : PaymentTxn) : Except String State :=
  if s.is_initialized then .error "DAO already initialized"
  else if ¬ (name ≠ "") then .error "DAO name cannot be empty"
  else if ¬ (description ≠ "") then .error "DAO description cannot be empty"
  else if ¬ (min_stake ≥ 100000) then .error "Minimum stake must be at least 0.1 ALGO"
  else if ¬ (voting_period ≥ 3600) then .error "Voting period must be at least 1 hour"
  else if ¬ (1 ≤ quorum_threshold ∧ quorum_threshold ≤ 100) then
    .error "Quorum threshold must be between 1-100%"
  else if ¬ (initial_payment.receiver = app) then .error "Payment must be to DAO contract"
  else if ¬ (initial_payment.sender = sender) then .error "Payment sender must match caller"
  else if ¬ (initial_payment.amount ≥ min_stake) then
    .error "Payment must meet minimum stake requirement"
  else
    let dao_info : DAOInfo :=
      { name := name
        description := description
        creator := sender
        min_stake := min_stake
        voting_period := voting_period
        quorum_threshold := quorum_threshold
        created_at := now
        is_active := true }
    let creator_member : Member :=
      { address := sender
        stake := initial_payment.amount
        joined_at := now
        is_active := true }
    .ok { s with
          dao_info := dao_info
          members := aset s.members sender creator_member
          member_count := 1
          total_stake := initial_payment.amount
          treasury_balance := initial_payment.amount
          is_initialized := true }

/-- Method `CitadelDAO.join_dao` of `old_contract.py`. -/
def join_dao (s : State) (sender now app : Nat) (payment : PaymentTxn) :
    Except String State :=
  if ¬ s.is_initialized then .error "DAO not initialized"
  else if ¬ s.dao_info.is_active then .error "DAO is not active"
  else if ¬ (payment.receiver = app) then .error "Payment must be to DAO contract"
  else if ¬ (payment.sender = sender) then .error "Payment sender must match caller"
  else if ¬ (payment.amount ≥ s.dao_info.min_stake) then
    .error "Payment must meet minimum stake"
  else
    match alookup s.members sender with
    | some _ => .error "Already a DAO member"
    | none =>
      let new_member : Member :=
        { address := sender
          stake := payment.amount
          joined_at := now
          is_active := true }
      .ok { s with
            members := aset s.members sender new_member
            member_count := s.member_count + 1
            total_stake := s.total_stake + payment.amount
            treasury_balance := s.treasury_balance + payment.amount }

/-- Method `CitadelDAO.increase_stake` of `old_contract.py`. -/
def increase_stake (s : State) (sender now app : Nat) (payment : PaymentTxn) :
    Except String State :=
  if ¬ s.is_initialized then .error "DAO not initialized"
  else if ¬ (payment.receiver = app) then .error "Payment must be to DAO contract"
  else if ¬ (payment.sender = sender) then .error "Payment sender must match caller"
  else if ¬ (payment.amount > 0) then .error "Payment amount must be positive"
  else
    match alookup s.members sender with
    | none => .error "Not a DAO member"
    | some member =>
      if ¬ member.is_active then .error "Member is not active"
      else
        let member' := { member with stake := member.stake + payment.amount }
        .ok { s with
              members := aset s.members sender member'
              total_stake := s.total_stake + payment.amount
              treasury_balance := s.treasury_balance + payment.amount }

/-- Method `CitadelDAO.leave_dao` of `old_contract.py`: the member is only marked
inactive; `total_stake` and the treasury are left untouched (the source's
TODO about stake withdrawal). -/
def leave_dao (s : State) (sender : Nat) : Except String State :=
  if ¬ s.is_initialized then .error "DAO not initialized"
  else
    match alookup s.members sender with
    | none => .error "Not a DAO member"
    | some member =>
      if ¬ member.is_active then .error "Member already inactive"
      else if s.dao_info.creator = sender ∧ s.member_count = 1 then
        .error "Creator cannot leave as the only member"
      else
        let member' := { member with is_active := false }
        .ok { s with
              members := aset s.members sender member'
              member_count := s.member_count - 1 }

/-- One transaction against `old_contract.py`'s `CitadelDAO`. -/
inductive Op where
  | initDao (sender now app : Nat) (name description : String)
      (min_stake voting_period quorum_threshold : Nat) (payment : PaymentTxn)
  | join (sender now app : Nat) (payment : PaymentTxn)
  | increase (sender now app : Nat) (payment : PaymentTxn)
  | leave (sender : Nat)

/-- Transaction semantics: a failed call (failed `assert`) leaves the chain
state unchanged. -/
def step (s : State) : Op → State
  | .initDao sender now app name description min_stake voting_period quorum_threshold p =>
      match initialize_dao s sender now app name description min_stake voting_period
          quorum_threshold p with
      | .ok s' => s'
      | .error _ => s
  | .join sender now app p =>
      match join_dao s sender now app p with
      | .ok s' => s'
      | .error _ => s
  | .increase sender now app p =>
      match increase_stake s sender now app p with
      | .ok s' => s'
      | .error _ => s
  | .leave sender =>
      match leave_dao s sender with
      | .ok s' => s'
      | .error _ => s

/-- The state after a finite sequence of transactions against a fresh contract. -/
def run (ops : List Op) : State :=
  ops.foldl step emptyState

/-- Sum of the stakes of all recorded members. -/
def sumStakes : List (Nat × Member) → Nat
  | [] => 0
  | e :: rest => e.2.stake + sumStakes rest

/-- Sum of the stakes of the active members only. -/
def sumActiveStakes : List (Nat × Member) → Nat
  | [] => 0
  | e :: rest => (if e.2.is_active then e.2.stake else 0) + sumActiveStakes rest

end OldDAO

/-! ## The `CitadelGovernance` contract (`citadel_dao/governance.py`) -/

namespace Governance

/-- The `Proposal` struct of `governance.py`. -/
structure Proposal where
  id : Nat
  title : String
  description : String
  creator : Nat
  created_at : Nat
  voting_start : Nat
  voting_end : Nat
  votes_for : Nat
  votes_against : Nat
  votes_abstain : Nat
  status : String
  execution_data : String
deriving DecidableEq, Repr

/-- The `Vote` struct of `governance.py`. -/
structure Vote where
  voter : Nat
  proposal_id : Nat
  support : Nat
  weight : Nat
  timestamp : Nat
deriving DecidableEq, Repr

/-- Global and box state of `CitadelGovernance`. The vote box key
`itob(proposal_id) + voter_address` becomes the pair (proposal id, voter). -/
structure State where
  proposal_count : Nat
  voting_delay : Nat
  voting_period : Nat
  proposal_threshold : Nat
  quorum_percentage : Nat
  proposals : Nat → Option Proposal
  votes : Nat × Nat → Option Vote
  dao_contract : Nat
  is_initialized : Bool

/-- Fresh contract state (`__init__`). -/
def emptyState : State where
  proposal_count := 0
  voting_delay := 0
  voting_period := 0
  proposal_threshold := 0
  quorum_percentage := 0
  proposals := fun _ => none
  votes := fun _ => none
  dao_contract := 0
  is_initialized := false

/-- Method `CitadelGovernance.initialize_governance`. -/
def initialize_governance (s : State)
    (dao_app_id voting_delay voting_period proposal_threshold quorum_percentage : Nat) :
    Except String State :=
  if s.is_initialized then .error "Governance already initialized"
  else if ¬ (dao_app_id > 0) then .error "Invalid DAO app ID"
  else if ¬ (voting_period ≥ 3600) then .error "Voting period must be at least 1 hour"
  else if ¬ (1 ≤ quorum_percentage ∧ quorum_percentage ≤ 100) then
    .error "Quorum must be between 1-100%"
  else
    .ok { s with
          dao_contract := dao_app_id
          voting_delay := voting_delay
          voting_period := voting_period
          proposal_threshold := proposal_threshold
          quorum_percentage := quorum_percentage
          proposal_count := 0
          is_initialized := true }

/-- Method `CitadelGovernance.create_proposal`. Returns the new proposal id. -/
def create_proposal (s : State) (sender now : Nat)
    (title description execution_data : String) : Except String (State × Nat) :=
  if ¬ s.is_initialized then .error "Governance not initialized"
  else if ¬ (title.length > 0) then .error "Title cannot be empty"
  else if ¬ (description.length > 0) then .error "Description cannot be empty"
  else
    let proposal_id := s.proposal_count + 1
    let voting_start := now + s.voting_delay
    let voting_end := voting_start + s.voting_period
    let proposal : Proposal :=
      { id := proposal_id
        title := title
        description := description
        creator := sender
        created_at := now
        voting_start := voting_start
        voting_end := voting_end
        votes_for := 0
        votes_against := 0
        votes_abstain := 0
        status := "pending"
        execution_data := execution_data }
    .ok ({ s with
            proposal_count := proposal_id
            proposals := fset s.proposals proposal_id proposal },
         proposal_id)

/-- Method `CitadelGovernance.cast_vote`. -/
def cast_vote (s : State) (sender now : Nat) (proposal_id support weight : Nat) :
    Except String State :=
  if ¬ s.is_initialized then .error "Governance not initialized"
  else if ¬ (support ≤ 2) then .error "Invalid vote type"
  else
    match s.proposals proposal_id with
    | none => .error "Proposal not found"
    | some proposal =>
      if ¬ (now ≥ proposal.voting_start) then .error "Voting not started"
      else if ¬ (now ≤ proposal.voting_end) then .error "Voting ended"
      else if ¬ (proposal.status = "pending" ∨ proposal.status = "active") then
        .error "Proposal not active"
      else
        match s.votes (proposal_id, sender) with
        | some _ => .error "Already voted on this proposal"
        | none =>
          let vote : Vote :=
            { voter := sender
              proposal_id := proposal_id
              support := support
              weight := weight
              timestamp := now }
          let tallied :=
            if support = 0 then
              { proposal with votes_against := proposal.votes_against + weight }
            else if support = 1 then
              { proposal with votes_for := proposal.votes_for + weight }
            else
              { proposal with votes_abstain := proposal.votes_abstain + weight }
          let proposal' :=
            if tallied.status = "pending" then { tallied with status := "active" }
            else tallied
          .ok { s with
                votes := fset s.votes (proposal_id, sender) vote
                proposals := fset s.proposals proposal_id proposal' }

/-- Method `CitadelGovernance.finalize_proposal`. The source computes the turnout
`total_votes` but (per its own TODO) never consults the quorum: the outcome
is decided by `votes_for > votes_against` alone. -/
def finalize_proposal (s : State) (now : Nat) (proposal_id : Nat) :
    Except String State :=
  if ¬ s.is_initialized then .error "Governance not initialized"
  else
    match s.proposals proposal_id with
    | none => .error "Proposal not found"
    | some proposal =>
      if ¬ (now > proposal.voting_end) then .error "Voting period not ended"
      else if ¬ (proposal.status = "active" ∨ proposal.status = "pending") then
        .error "Proposal already finalized"
      else
        let total_votes :=
          proposal.votes_for + proposal.votes_against + proposal.votes_abstain
        let proposal' :=
          if proposal.votes_for > proposal.votes_against then
            { proposal with status := "passed" }
          else
            { proposal with status := "rejected" }
        .ok { s with proposals := fset s.proposals proposal_id proposal' }

/-- Method `CitadelGovernance.has_voted` (readonly). -/
def has_voted (s : State) (proposal_id voter : Nat) : Bool :=
  if ¬ s.is_initialized then false
  else (s.votes (proposal_id, voter)).isSome

/-- Method `CitadelGovernance.get_proposal_count` (readonly). -/
def get_proposal_count (s : State) : Nat :=
  if ¬ s.is_initialized then 0
  else s.proposal_count

/-- One transaction against `CitadelGovernance`. -/
inductive Op where
  | initGov (dao_app_id voting_delay voting_period proposal_threshold
      quorum_percentage : Nat)
  | create (sender now : Nat) (title description execution_data : String)
  | cast (sender now : Nat) (proposal_id support weight : Nat)
  | finalize (now : Nat) (proposal_id : Nat)

/-- Transaction semantics: a failed call leaves the chain state unchanged. -/
def step (s : State) : Op → State
  | .initGov a b c d e =>
      match initialize_governance s a b c d e with
      | .ok s' => s'
      | .error _ => s
  | .create sender now t d e =>
      match create_proposal s sender now t d e with
      | .ok r => r.1
      | .error _ => s
  | .cast sender now pid sup w =>
      match cast_vote s sender now pid sup w with
      | .ok s' => s'
      | .error _ => s
  | .finalize now pid =>
      match finalize_proposal s now pid with
      | .ok s' => s'
      | .error _ => s

end Governance

/-! ## The `CitadelTreasury` contract (`citadel_dao/treasury.py`) -/

namespace Treasury

/-- The `PaymentRecord` struct of `treasury.py`. -/
structure PaymentRecord where
  id : Nat
  recipient : Nat
  amount : Nat
  purpose : String
  timestamp : Nat
  executed_by : Nat
deriving DecidableEq, Repr

/-- The `RevenueShare` struct of `treasury.py`. -/
structure RevenueShare where
  member : Nat
  share_percentage : Nat
  total_received : Nat
  last_distribution : Nat
deriving DecidableEq, Repr

/-- Global and box state of `CitadelTreasury`. `total_balance` is an `Int`
so that freedom from underflow is a provable statement rather than a typing
artifact: the AVM would panic if a subtraction went below zero. -/
structure State where
  total_balance : Int
  total_distributed : Nat
  payment_count : Nat
  revenue_count : Nat
  dao_contract : Nat
  governance_contract : Nat
  payments : Nat → Option PaymentRecord
  revenue_shares : Nat → Option RevenueShare
  is_paused : Bool
  emergency_admin : Nat
  is_initialized : Bool

/-- Fresh contract state (`__init__`). -/
def emptyState : State where
  total_balance := 0
  total_distributed := 0
  payment_count := 0
  revenue_count := 0
  dao_contract := 0
  governance_contract := 0
  payments := fun _ => none
  revenue_shares := fun _ => none
  is_paused := false
  emergency_admin := 0
  is_initialized := false

/-- Method `CitadelTreasury.initialize_treasury`. -/
def initialize_treasury (s : State)
    (dao_app_id governance_app_id emergency_admin : Nat) : Except String State :=
  if s.is_initialized then .error "Treasury already initialized"
  else if ¬ (dao_app_id > 0) then .error "Invalid DAO app ID"
  else if ¬ (governance_app_id > 0) then .error "Invalid governance app ID"
  else
    .ok { s with
          dao_contract := dao_app_id
          governance_contract := governance_app_id
          emergency_admin := emergency_admin
          total_balance := 0
          total_distributed := 0
          payment_count := 0
          revenue_count := 0
          is_paused := false
          is_initialized := true }

/-- Method `CitadelTreasury.receive_funds`. -/
def receive_funds (s : State) (sender now app : Nat) (payment : PaymentTxn)
    (purpose : String) : Except String State :=
  if ¬ s.is_initialized then .error "Treasury not initialized"
  else if s.is_paused then .error "Treasury is paused"
  else if ¬ (payment.receiver = app) then .error "Payment must be to treasury"
  else if ¬ (payment.amount > 0) then .error "Payment amount must be positive"
  else
    let payment_id := s.payment_count + 1
    let record : PaymentRecord :=
      { id := payment_id
        recipient := app
        amount := payment.amount
        purpose := purpose
        timestamp := now
        executed_by := payment.sender }
    .ok { s with
          total_balance := s.total_balance + payment.amount
          payment_count := payment_id
          payments := fset s.payments payment_id record }

/-- Method `CitadelTreasury.authorize_payment`. -/
def authorize_payment (s : State) (sender now : Nat) (recipient amount : Nat)
    (purpose : String) : Except String State :=
  if ¬ s.is_initialized then .error "Treasury not initialized"
  else if s.is_paused then .error "Treasury is paused"
  else if ¬ (amount > 0) then .error "Amount must be positive"
  else if ¬ ((amount : Int) ≤ s.total_balance) then .error "Insufficient treasury balance"
  else
    let payment_id := s.payment_count + 1
    let record : PaymentRecord :=
      { id := payment_id
        recipient := recipient
        amount := amount
        purpose := purpose
        timestamp := now
        executed_by := sender }
    .ok { s with
          total_balance := s.total_balance - amount
          total_distributed := s.total_distributed + amount
          payment_count := payment_id
          payments := fset s.payments payment_id record }

/-- Method `CitadelTreasury.distribute_revenue`. -/
def distribute_revenue (s : State) (revenue_amount : Nat)
    (member_addresses : String) : Except String State :=
  if ¬ s.is_initialized then .error "Treasury not initialized"
  else if s.is_paused then .error "Treasury is paused"
  else if ¬ (revenue_amount > 0) then .error "Revenue amount must be positive"
  else if ¬ ((revenue_amount : Int) ≤ s.total_balance) then
    .error "Insufficient treasury balance"
  else
    .ok { s with
          revenue_count := s.revenue_count + 1
          total_distributed := s.total_distributed + revenue_amount
          total_balance := s.total_balance - revenue_amount }

/-- Method `CitadelTreasury.set_revenue_share`. Note: unlike the other mutating
methods this one has no `is_paused` check in the source. -/
def set_revenue_share (s : State) (member share_percentage : Nat) :
    Except String State :=
  if ¬ s.is_initialized then .error "Treasury not initialized"
  else if ¬ (share_percentage ≤ 10000) then .error "Share percentage cannot exceed 100%"
  else
    match s.revenue_shares member with
    | some existing_share =>
      .ok { s with
            revenue_shares :=
              fset s.revenue_shares member
                { existing_share with share_percentage := share_percentage } }
    | none =>
      .ok { s with
            revenue_shares :=
              fset s.revenue_shares member
                { member := member
                  share_percentage := share_percentage
                  total_received := 0
                  last_distribution := 0 } }

/-- Method `CitadelTreasury.emergency_pause`. -/
def emergency_pause (s : State) (sender : Nat) : Except String State :=
  if ¬ s.is_initialized then .error "Treasury not initialized"
  else if ¬ (sender = s.emergency_admin) then .error "Only emergency admin can pause"
  else .ok { s with is_paused := true }

/-- Method `CitadelTreasury.emergency_unpause`. -/
def emergency_unpause (s : State) (sender : Nat) : Except String State :=
  if ¬ s.is_initialized then .error "Treasury not initialized"
  else if ¬ (sender = s.emergency_admin) then .error "Only emergency admin can unpause"
  else .ok { s with is_paused := false }

/-- Method `CitadelTreasury.emergency_withdraw`. -/
def emergency_withdraw (s : State) (sender : Nat) (recipient amount : Nat) :
    Except String State :=
  if ¬ s.is_initialized then .error "Treasury not initialized"
  else if ¬ (sender = s.emergency_admin) then .error "Only emergency admin can withdraw"
  else if ¬ ((amount : Int) ≤ s.total_balance) then .error "Insufficient balance"
  else .ok { s with total_balance := s.total_balance - amount }

/-- Method `CitadelTreasury.get_balance` (readonly). -/
def get_balance (s : State) : Int :=
  if ¬ s.is_initialized then 0 else s.total_balance

/-- Method `CitadelTreasury.get_total_distributed` (readonly). -/
def get_total_distributed (s : State) : Nat :=
  if ¬ s.is_initialized then 0 else s.total_distributed

/-- Method `CitadelTreasury.get_payment_count` (readonly). -/
def get_payment_count (s : State) : Nat :=
  if ¬ s.is_initialized then 0 else s.payment_count

/-- One transaction against `CitadelTreasury`. -/
inductive Op where
  | initTre (dao_app_id governance_app_id emergency_admin : Nat)
  | receive (sender now app : Nat) (payment : PaymentTxn) (purpose : String)
  | authorize (sender now : Nat) (recipient amount : Nat) (purpose : String)
  | distribute (revenue_amount : Nat) (member_addresses : String)
  | setShare (member share_percentage : Nat)
  | pause (sender : Nat)
  | unpause (sender : Nat)
  | withdraw (sender : Nat) (recipient amount : Nat)

/-- Transaction semantics: a failed call leaves the chain state unchanged. -/
def step (s : State) : Op → State
  | .initTre a b c =>
      match initialize_treasury s a b c with
      | .ok s' => s' | .error _ => s
  | .receive sender now app p purpose =>
      match receive_funds s sender now app p purpose with
      | .ok s' => s' | .error _ => s
  | .authorize sender now r a purpose =>
      match authorize_payment s sender now r a purpose with
      | .ok s' => s' | .error _ => s
  | .distribute amt ms =>
      match distribute_revenue s amt ms with
      | .ok s' => s' | .error _ => s
  | .setShare m pct =>
      match set_revenue_share s m pct with
      | .ok s' => s' | .error _ => s
  | .pause sender =>
      match emergency_pause s sender with
      | .ok s' => s' | .error _ => s
  | .unpause sender =>
      match emergency_unpause s sender with
      | .ok s' => s' | .error _ => s
  | .withdraw sender r a =>
      match emergency_withdraw s sender r a with
      | .ok s' => s' | .error _ => s

/-- The state after a finite sequence of transactions against a fresh contract. -/
def run (ops : List Op) : State :=
  ops.foldl step emptyState

end Treasury

/-! ## The `CitadelModeratorNFT` contract (`citadel_dao/nft_moderator.py`) -/

namespace NFT

/-- The `ModeratorNFT` struct of `nft_moderator.py`. -/
structure ModeratorNFT where
  asset_id : Nat
  name : String
  description : String
  category : String
  creator_dao : Nat
  creator_address : Nat
  ipfs_hash : String
  created_at : Nat
  is_active : Bool
  usage_count : Nat
  revenue_generated : Nat
deriving DecidableEq, Repr

/-- The `ModeratorLicense` struct of `nft_moderator.py`. -/
structure ModeratorLicense where
  nft_id : Nat
  licensee : Nat
  license_type : String
  start_date : Nat
  end_date : Nat
  usage_limit : Nat
  usage_count : Nat
  amount_paid : Nat
  is_active : Bool
deriving DecidableEq, Repr

/-- The zero value an algopy `BoxMap.maybe` miss yields for a license. -/
def zeroLicense : ModeratorLicense where
  nft_id := 0
  licensee := 0
  license_type := ""
  start_date := 0
  end_date := 0
  usage_limit := 0
  usage_count := 0
  amount_paid := 0
  is_active := false

/-- Global and box state of `CitadelModeratorNFT`. The user-license box key
`sender + itob(nft_id)` becomes the pair (user, nft id). -/
structure State where
  nft_count : Nat
  license_count : Nat
  total_revenue : Nat
  dao_contract : Nat
  treasury_contract : Nat
  moderator_nfts : Nat → Option ModeratorNFT
  asset_to_nft : Nat → Option Nat
  licenses : Nat → Option ModeratorLicense
  user_licenses : Nat × Nat → Option Nat
  is_initialized : Bool

/-- Fresh contract state (`__init__`). -/
def emptyState : State where
  nft_count := 0
  license_count := 0
  total_revenue := 0
  dao_contract := 0
  treasury_contract := 0
  moderator_nfts := fun _ => none
  asset_to_nft := fun _ => none
  licenses := fun _ => none
  user_licenses := fun _ => none
  is_initialized := false

/-- Method `CitadelModeratorNFT.initialize_nft_contract`. -/
def initialize_nft_contract (s : State) (dao_app_id treasury_app_id : Nat) :
    Except String State :=
  if s.is_initialized then .error "NFT contract already initialized"
  else if ¬ (dao_app_id > 0) then .error "Invalid DAO app ID"
  else if ¬ (treasury_app_id > 0) then .error "Invalid treasury app ID"
  else
    .ok { s with
          dao_contract := dao_app_id
          treasury_contract := treasury_app_id
          nft_count := 0
          license_count := 0
          total_revenue := 0
          is_initialized := true }

/-- Method `CitadelModeratorNFT.create_moderator_nft`; `_create_asa` returns
`Global.latest_timestamp` in the source, so the asset id is `now`. -/
def create_moderator_nft (s : State) (sender now : Nat)
    (name description category ipfs_hash : String) (dao_app_id : Nat) :
    Except String (State × Nat) :=
  if ¬ s.is_initialized then .error "NFT contract not initialized"
  else if ¬ (name.length > 0) then .error "Name cannot be empty"
  else if ¬ (description.length > 0) then .error "Description cannot be empty"
  else if ¬ (category.length > 0) then .error "Category cannot be empty"
  else if ¬ (ipfs_hash.length > 0) then .error "IPFS hash cannot be empty"
  else
    let asset_id := now
    let nft_id := s.nft_count + 1
    let nft : ModeratorNFT :=
      { asset_id := asset_id
        name := name
        description := description
        category := category
        creator_dao := dao_app_id
        creator_address := sender
        ipfs_hash := ipfs_hash
        created_at := now
        is_active := true
        usage_count := 0
        revenue_generated := 0 }
    .ok ({ s with
            nft_count := nft_id
            moderator_nfts := fset s.moderator_nfts nft_id nft
            asset_to_nft := fset s.asset_to_nft asset_id nft_id },
         nft_id)

/-- Method `CitadelModeratorNFT.purchase_license`. Returns the new license id. -/
def purchase_license (s : State) (sender now app : Nat) (nft_id : Nat)
    (license_type : String) (duration_days usage_limit : Nat)
    (payment : PaymentTxn) : Except String (State × Nat) :=
  if ¬ s.is_initialized then .error "NFT contract not initialized"
  else
    match s.moderator_nfts nft_id with
    | none => .error "NFT not found"
    | some nft =>
      if ¬ nft.is_active then .error "NFT is not active"
      else if ¬ (payment.receiver = app) then .error "Payment must be to NFT contract"
      else if ¬ (payment.sender = sender) then .error "Payment sender must match caller"
      else if ¬ (payment.amount > 0) then .error "Payment amount must be positive"
      else
        let existing := s.user_licenses (sender, nft_id)
        let existing_license :=
          match existing with
          | some lid => (s.licenses lid).getD zeroLicense
          | none => zeroLicense
        if existing.isSome ∧ existing_license.is_active then
          .error "User already has active license"
        else
          let end_date := if duration_days > 0 then now + duration_days * 86400 else 0
          let license_id := s.license_count + 1
          let license : ModeratorLicense :=
            { nft_id := nft_id
              licensee := sender
              license_type := license_type
              start_date := now
              end_date := end_date
              usage_limit := usage_limit
              usage_count := 0
              amount_paid := payment.amount
              is_active := true }
          let nft' :=
            { nft with revenue_generated := nft.revenue_generated + payment.amount }
          .ok ({ s with
                  license_count := license_id
                  licenses := fset s.licenses license_id license
                  user_licenses := fset s.user_licenses (sender, nft_id) license_id
                  total_revenue := s.total_revenue + payment.amount
                  moderator_nfts := fset s.moderator_nfts nft_id nft' },
               license_id)

/-- Method `CitadelModeratorNFT.use_moderator`. The source reads the license with
`self.licenses.maybe(license_id)` and ignores the found flag, so a missing
license reads as the zero value, whose `is_active` is false. -/
def use_moderator (s : State) (sender now : Nat) (nft_id : Nat) :
    Except String State :=
  if ¬ s.is_initialized then .error "NFT contract not initialized"
  else
    match s.moderator_nfts nft_id with
    | none => .error "NFT not found"
    | some nft =>
      if ¬ nft.is_active then .error "NFT is not active"
      else
        match s.user_licenses (sender, nft_id) with
        | none => .error "No license found for user"
        | some license_id =>
          let license := (s.licenses license_id).getD zeroLicense
          if ¬ license.is_active then .error "License is not active"
          else if license.end_date > 0 ∧ ¬ (now ≤ license.end_date) then
            .error "License expired"
          else if license.usage_limit > 0 ∧ ¬ (license.usage_count < license.usage_limit) then
            .error "Usage limit exceeded"
          else
            let license' := { license with usage_count := license.usage_count + 1 }
            let nft' := { nft with usage_count := nft.usage_count + 1 }
            .ok { s with
                  licenses := fset s.licenses license_id license'
                  moderator_nfts := fset s.moderator_nfts nft_id nft' }

/-- One transaction against `CitadelModeratorNFT`. -/
inductive Op where
  | initNft (dao_app_id treasury_app_id : Nat)
  | createNft (sender now : Nat) (name description category ipfs_hash : String)
      (dao_app_id : Nat)
  | purchase (sender now app : Nat) (nft_id : Nat) (license_type : String)
      (duration_days usage_limit : Nat) (payment : PaymentTxn)
  | use (sender now : Nat) (nft_id : Nat)

/-- Transaction semantics: a failed call leaves the chain state unchanged. -/
def step (s : State) : Op → State
  | .initNft a b =>
      match initialize_nft_contract s a b with
      | .ok s' => s' | .error _ => s
  | .createNft sender now n d c i dao =>
      match create_moderator_nft s sender now n d c i dao with
      | .ok r => r.1 | .error _ => s
  | .purchase sender now app nft lt dd ul p =>
      match purchase_license s sender now app nft lt dd ul p with
      | .ok r => r.1 | .error _ => s
  | .use sender now nft =>
      match use_moderator s sender now nft with
      | .ok s' => s' | .error _ => s

/-- The state after a finite sequence of transactions against a fresh contract. -/
def run (ops : List Op) : State :=
  ops.foldl step emptyState

end NFT

/-! ## The `ModeratorPurchaseContract` (`moderator_purchase/contract.py`) -/

namespace Purchase

/-- An inner payment submitted by the contract (`itxn.Payment`). -/
structure PaymentOut where
  receiver : Nat
  amount : Nat
deriving DecidableEq, Repr

/-- Global and local state of `ModeratorPurchaseContract`. Local-state slots
are total maps from accounts, zero-valued before first write. -/
structure State where
  contract_owner : Nat
  moderator_owner : Nat
  moderator_creator : Nat
  moderator_exists : Nat
  hourly_price : Nat
  monthly_price : Nat
  buyout_price : Nat
  total_transactions : Nat
  total_revenue : Nat
  total_users : Nat
  user_access_type : Nat → Nat
  access_expiry : Nat → Nat
  hours_remaining : Nat → Nat
  total_spent : Nat → Nat

/-- Method `ModeratorPurchaseContract.create_moderator` applied to the zeroed
creation state. -/
def create_moderator (sender creator : Nat)
    (hourly_price_algo monthly_price_algo buyout_price_algo : Nat) : State where
  contract_owner := sender
  moderator_owner := creator
  moderator_creator := creator
  moderator_exists := 1
  hourly_price := hourly_price_algo * 1000000
  monthly_price := monthly_price_algo * 1000000
  buyout_price := buyout_price_algo * 1000000
  total_transactions := 0
  total_revenue := 0
  total_users := 0
  user_access_type := fun _ => 0
  access_expiry := fun _ => 0
  hours_remaining := fun _ => 0
  total_spent := fun _ => 0

/-- Write one account's slot of a local-state map. -/
def lset (m : Nat → Nat) (k v : Nat) : Nat → Nat :=
  fun k' => if k' = k then v else m k'

/-- Method `ModeratorPurchaseContract.purchase_hourly_access`. Returns the updated
state and the inner payment sent to the moderator owner. -/
def purchase_hourly_access (s : State) (sender now app : Nat)
    (payment : PaymentTxn) (hours : Nat) : Except String (State × PaymentOut) :=
  if ¬ (s.moderator_exists = 1) then .error "Moderator does not exist"
  else
    let required_payment := s.hourly_price * hours
    if ¬ (payment.receiver = app) then .error "assert failed"
    else if ¬ (payment.amount ≥ required_payment) then .error "assert failed"
    else if ¬ (payment.sender = sender) then .error "assert failed"
    else
      let total_payment := payment.amount
      let owner_share := total_payment * 90 / 100
      let contract_fee := total_payment - owner_share
      let out : PaymentOut := { receiver := s.moderator_owner, amount := owner_share }
      let current_hours := s.hours_remaining sender
      let current_spent := s.total_spent sender
      .ok ({ s with
              hours_remaining := lset s.hours_remaining sender (current_hours + hours)
              user_access_type := lset s.user_access_type sender 1
              total_spent := lset s.total_spent sender (current_spent + total_payment)
              total_transactions := s.total_transactions + 1
              total_revenue := s.total_revenue + contract_fee
              total_users :=
                if current_spent = 0 then s.total_users + 1 else s.total_users },
           out)

/-- Method `ModeratorPurchaseContract.purchase_monthly_license`. -/
def purchase_monthly_license (s : State) (sender now app : Nat)
    (payment : PaymentTxn) (months : Nat) : Except String (State × PaymentOut) :=
  if ¬ (s.moderator_exists = 1) then .error "Moderator does not exist"
  else
    let required_payment := s.monthly_price * months
    if ¬ (payment.receiver = app) then .error "assert failed"
    else if ¬ (payment.amount ≥ required_payment) then .error "assert failed"
    else if ¬ (payment.sender = sender) then .error "assert failed"
    else
      let total_payment := payment.amount
      let owner_share := total_payment * 90 / 100
      let contract_fee := total_payment - owner_share
      let out : PaymentOut := { receiver := s.moderator_owner, amount := owner_share }
      let seconds_per_month := 30 * 24 * 60 * 60
      let additional_time := seconds_per_month * months
      let current_expiry := s.access_expiry sender
      let new_expiry :=
        if current_expiry > now then current_expiry + additional_time
        else now + additional_time
      let current_spent := s.total_spent sender
      .ok ({ s with
              access_expiry := lset s.access_expiry sender new_expiry
              user_access_type := lset s.user_access_type sender 2
              total_spent := lset s.total_spent sender (current_spent + total_payment)
              total_transactions := s.total_transactions + 1
              total_revenue := s.total_revenue + contract_fee
              total_users :=
                if current_spent = 0 then s.total_users + 1 else s.total_users },
           out)

/-- Method `ModeratorPurchaseContract.buyout_moderator`. -/
def buyout_moderator (s : State) (sender now app : Nat)
    (payment : PaymentTxn) : Except String (State × PaymentOut) :=
  if ¬ (s.moderator_exists = 1) then .error "Moderator does not exist"
  else if s.moderator_owner = sender then .error "You already own this moderator"
  else if ¬ (payment.receiver = app) then .error "assert failed"
  else if ¬ (payment.amount ≥ s.buyout_price) then .error "assert failed"
  else if ¬ (payment.sender = sender) then .error "assert failed"
  else
    let total_payment := payment.amount
    let owner_share := total_payment * 90 / 100
    let contract_fee := total_payment - owner_share
    let out : PaymentOut := { receiver := s.moderator_owner, amount := owner_share }
    let current_spent := s.total_spent sender
    .ok ({ s with
            moderator_owner := sender
            user_access_type := lset s.user_access_type sender 3
            access_expiry := lset s.access_expiry sender 0
            hours_remaining := lset s.hours_remaining sender 0
            total_spent := lset s.total_spent sender (current_spent + total_payment)
            total_transactions := s.total_transactions + 1
            total_revenue := s.total_revenue + contract_fee
            total_users :=
              if current_spent = 0 then s.total_users + 1 else s.total_users },
         out)

end Purchase

/-! ## Stake-conservation lemmas for the single-DAO contract -/

namespace OldDAO

/-- Writing a fresh key adds its stake to the member-stake sum. -/
theorem sumStakes_aset_of_none {l : List (Nat × Member)} {k : Nat} (v : Member)
    (h : alookup l k = none) : sumStakes (aset l k v) = sumStakes l + v.stake := by
  induction l with
  | nil => simp [aset, sumStakes]
  | cons e rest ih =>
    obtain ⟨k', v'⟩ := e
    by_cases hk : k' = k
    · simp [alookup, hk] at h
    · simp only [alookup, if_neg hk] at h
      simp only [aset, if_neg hk, sumStakes]
      rw [ih h]
      omega

/-- Overwriting an existing key trades its old stake for the new one in the
member-stake sum. -/
theorem sumStakes_aset_of_some {l : List (Nat × Member)} {k : Nat} {m : Member}
    (v : Member) (h : alookup l k = some m) :
    sumStakes (aset l k v) + m.stake = sumStakes l + v.stake := by
  induction l with
  | nil => simp [alookup] at h
  | cons e rest ih =>
    obtain ⟨k', v'⟩ := e
    by_cases hk : k' = k
    · simp only [alookup, if_pos hk, Option.some.injEq] at h
      subst h
      simp only [aset, if_pos hk, sumStakes]
      omega
    · simp only [alookup, if_neg hk] at h
      simp only [aset, if_neg hk, sumStakes]
      have := ih h
      omega

/-- The invariant the amended stake-conservation claim rests on: the recorded
`total_stake` counter equals the sum of the stakes of *all* members, active
or not, and before initialization the member box map is empty. -/
def Inv (s : State) : Prop :=
  sumStakes s.members = s.total_stake ∧ (s.is_initialized = false → s.members = [])

/-- Method `initialize_dao` preserves the invariant. -/
theorem initialize_dao_inv {s s' : State} {sender now app : Nat} {n d : String}
    {ms vp qt : Nat} {p : PaymentTxn} (h : Inv s)
    (heq : initialize_dao s sender now app n d ms vp qt p = .ok s') : Inv s' := by
  unfold initialize_dao at heq
  split at heq
  · exact Except.noConfusion heq
  case isFalse hinit =>
  split at heq
  · exact Except.noConfusion heq
  split at heq
  · exact Except.noConfusion heq
  split at heq
  · exact Except.noConfusion heq
  split at heq
  · exact Except.noConfusion heq
  split at heq
  · exact Except.noConfusion heq
  split at heq
  · exact Except.noConfusion heq
  split at heq
  · exact Except.noConfusion heq
  split at heq
  · exact Except.noConfusion heq
  injection heq with heq'
  subst heq'
  have hmem : s.members = [] := h.2 (by simpa using hinit)
  constructor
  · simp [hmem, aset, sumStakes]
  · intro hfalse
    simp at hfalse

/-- Method `join_dao` preserves the invariant. -/
theorem join_dao_inv {s s' : State} {sender now app : Nat} {p : PaymentTxn}
    (h : Inv s) (heq : join_dao s sender now app p = .ok s') : Inv s' := by
  unfold join_dao at heq
  split at heq
  case isTrue => exact Except.noConfusion heq
  case isFalse hinit =>
  split at heq
  · exact Except.noConfusion heq
  split at heq
  · exact Except.noConfusion heq
  split at heq
  · exact Except.noConfusion heq
  split at heq
  · exact Except.noConfusion heq
  split at heq
  case h_1 => exact Except.noConfusion heq
  case h_2 hnone =>
  injection heq with heq'
  subst heq'
  have hinit' : s.is_initialized = true := not_not.mp hinit
  refine ⟨?_, ?_⟩
  · show sumStakes (aset s.members sender
        { address := sender, stake := p.amount, joined_at := now, is_active := true })
      = s.total_stake + p.amount
    rw [sumStakes_aset_of_none _ hnone, h.1]
  · intro hfalse
    simp [hinit'] at hfalse

/-- Method `increase_stake` preserves the invariant. -/
theorem increase_stake_inv {s s' : State} {sender now app : Nat} {p : PaymentTxn}
    (h : Inv s) (heq : increase_stake s sender now app p = .ok s') : Inv s' := by
  unfold increase_stake at heq
  split at heq
  case isTrue => exact Except.noConfusion heq
  case isFalse hinit =>
  split at heq
  · exact Except.noConfusion heq
  split at heq
  · exact Except.noConfusion heq
  split at heq
  · exact Except.noConfusion heq
  split at heq
  case h_1 => exact Except.noConfusion heq
  case h_2 member hsome =>
  split at heq
  · exact Except.noConfusion heq
  injection heq with heq'
  subst heq'
  have hinit' : s.is_initialized = true := not_not.mp hinit
  refine ⟨?_, ?_⟩
  · show sumStakes (aset s.members sender
        { member with stake := member.stake + p.amount })
      = s.total_stake + p.amount
    have hsum := sumStakes_aset_of_some
      { member with stake := member.stake + p.amount } hsome
    have h1 := h.1
    simp only at hsum
    omega
  · intro hfalse
    simp [hinit'] at hfalse

/-- Method `leave_dao` preserves the invariant. -/
theorem leave_dao_inv {s s' : State} {sender : Nat}
    (h : Inv s) (heq : leave_dao s sender = .ok s') : Inv s' := by
  unfold leave_dao at heq
  split at heq
  case isTrue => exact Except.noConfusion heq
  case isFalse hinit =>
  split at heq
  case h_1 => exact Except.noConfusion heq
  case h_2 member hsome =>
  split at heq
  · exact Except.noConfusion heq
  split at heq
  · exact Except.noConfusion heq
  injection heq with heq'
  subst heq'
  have hinit' : s.is_initialized = true := not_not.mp hinit
  refine ⟨?_, ?_⟩
  · show sumStakes (aset s.members sender { member with is_active := false })
      = s.total_stake
    have hsum := sumStakes_aset_of_some { member with is_active := false } hsome
    have h1 := h.1
    simp only at hsum
    omega
  · intro hfalse
    simp [hinit'] at hfalse

/-- Every transaction preserves the invariant. -/
theorem step_inv (s : State) (op : Op) (h : Inv s) : Inv (step s op) := by
  cases op with
  | initDao sender now app n d ms vp qt p =>
    simp only [step]
    rcases heq : initialize_dao s sender now app n d ms vp qt p with e | s'
    · exact h
    · exact initialize_dao_inv h heq
  | join sender now app p =>
    simp only [step]
    rcases heq : join_dao s sender now app p with e | s'
    · exact h
    · exact join_dao_inv h heq
  | increase sender now app p =>
    simp only [step]
    rcases heq : increase_stake s sender now app p with e | s'
    · exact h
    · exact increase_stake_inv h heq
  | leave sender =>
    simp only [step]
    rcases heq : leave_dao s sender with e | s'
    · exact h
    · exact leave_dao_inv h heq

/-- The invariant holds in every reachable state. -/
theorem run_inv (ops : List Op) : Inv (run ops) := by
  have main : ∀ (l : List Op) (s : State), Inv s → Inv (l.foldl step s) := by
    intro l
    induction l with
    | nil => intro s h; exact h
    | cons op rest ih => intro s h; exact ih (step s op) (step_inv s op h)
  exact main ops emptyState ⟨rfl, fun _ => rfl⟩

/-- The trace refuting the claim as stated: the creator initializes the DAO
with a 100000 µALGO stake, a second member joins with 100000 µALGO, then the
second member leaves; their stake stays in `total_stake`. -/
def c3Ops : List Op :=
  [ .initDao 7 0 100 "n" "d" 100000 3600 50
      { sender := 7, receiver := 100, amount := 100000 },
    .join 8 0 100 { sender := 8, receiver := 100, amount := 100000 },
    .leave 8 ]

end OldDAO

/-! ## C3 -/

/-- C3 counterexample: after initialize + join + leave, the sum of the
*active* members' stakes is 100000 but `total_stake` is 200000, because
`leave_dao` only marks the member inactive and never subtracts their stake. -/
theorem old_dao_active_stake_cex :
    OldDAO.sumActiveStakes (OldDAO.run OldDAO.c3Ops).members
      ≠ (OldDAO.run OldDAO.c3Ops).total_stake := by
  decide

/-- C3 amended: after every finite sequence of initialize/join/top-up/leave
transactions, the sum of the stakes of *all recorded* members — active and
inactive alike — equals the `total_stake` counter (a leaver's stake stays
counted; the equality over active members only fails, see the
counterexample). -/
theorem old_dao_total_stake_conservation (ops : List OldDAO.Op) :
    OldDAO.sumStakes (OldDAO.run ops).members = (OldDAO.run ops).total_stake :=
  (OldDAO.run_inv ops).1

/-! ## Treasury balance lemmas -/

namespace Treasury

/-- Every treasury transaction keeps `total_balance` non-negative: the
methods that debit it assert `amount <= total_balance` first. -/
theorem step_balance_nonneg (s : State) (op : Op) (h : 0 ≤ s.total_balance) :
    0 ≤ (step s op).total_balance := by
  cases op with
  | initTre a b c =>
    simp only [step]
    rcases heq : initialize_treasury s a b c with e | s'
    · exact h
    · unfold initialize_treasury at heq
      split at heq
      · exact Except.noConfusion heq
      split at heq
      · exact Except.noConfusion heq
      split at heq
      · exact Except.noConfusion heq
      injection heq with heq'
      subst heq'
      simp
  | receive sender now app p purpose =>
    simp only [step]
    rcases heq : receive_funds s sender now app p purpose with e | s'
    · exact h
    · unfold receive_funds at heq
      split at heq
      · exact Except.noConfusion heq
      split at heq
      · exact Except.noConfusion heq
      split at heq
      · exact Except.noConfusion heq
      split at heq
      · exact Except.noConfusion heq
      injection heq with heq'
      subst heq'
      show 0 ≤ s.total_balance + (p.amount : Int)
      omega
  | authorize sender now r a purpose =>
    simp only [step]
    rcases heq : authorize_payment s sender now r a purpose with e | s'
    · exact h
    · unfold authorize_payment at heq
      split at heq
      · exact Except.noConfusion heq
      split at heq
      · exact Except.noConfusion heq
      split at heq
      · exact Except.noConfusion heq
      split at heq
      case isTrue => exact Except.noConfusion heq
      case isFalse hle =>
      injection heq with heq'
      subst heq'
      show 0 ≤ s.total_balance - (a : Int)
      have := not_not.mp hle
      omega
  | distribute a ms =>
    simp only [step]
    rcases heq : distribute_revenue s a ms with e | s'
    · exact h
    · unfold distribute_revenue at heq
      split at heq
      · exact Except.noConfusion heq
      split at heq
      · exact Except.noConfusion heq
      split at heq
      · exact Except.noConfusion heq
      split at heq
      case isTrue => exact Except.noConfusion heq
      case isFalse hle =>
      injection heq with heq'
      subst heq'
      show 0 ≤ s.total_balance - (a : Int)
      have := not_not.mp hle
      omega
  | setShare m pct =>
    simp only [step]
    rcases heq : set_revenue_share s m pct with e | s'
    · exact h
    · unfold set_revenue_share at heq
      split at heq
      · exact Except.noConfusion heq
      split at heq
      · exact Except.noConfusion heq
      split at heq
      all_goals (injection heq with heq'; subst heq'; exact h)
  | pause sender =>
    simp only [step]
    rcases heq : emergency_pause s sender with e | s'
    · exact h
    · unfold emergency_pause at heq
      split at heq
      · exact Except.noConfusion heq
      split at heq
      · exact Except.noConfusion heq
      injection heq with heq'
      subst heq'
      exact h
  | unpause sender =>
    simp only [step]
    rcases heq : emergency_unpause s sender with e | s'
    · exact h
    · unfold emergency_unpause at heq
      split at heq
      · exact Except.noConfusion heq
      split at heq
      · exact Except.noConfusion heq
      injection heq with heq'
      subst heq'
      exact h
  | withdraw sender r a =>
    simp only [step]
    rcases heq : emergency_withdraw s sender r a with e | s'
    · exact h
    · unfold emergency_withdraw at heq
      split at heq
      · exact Except.noConfusion heq
      split at heq
      · exact Except.noConfusion heq
      split at heq
      case isTrue => exact Except.noConfusion heq
      case isFalse hle =>
      injection heq with heq'
      subst heq'
      show 0 ≤ s.total_balance - (a : Int)
      have := not_not.mp hle
      omega

end Treasury

/-- A treasury freshly initialized by the admin (address 9): balance 0. -/
def witTre : Treasury.State :=
  { Treasury.emptyState with
      is_initialized := true
      dao_contract := 1
      governance_contract := 2
      emergency_admin := 9 }

/-- The initialized treasury after `emergency_pause`, holding 5 µALGO. -/
def pausedTre : Treasury.State :=
  { witTre with is_paused := true, total_balance := 5 }

/-! ## C4 -/

/-- C4: the treasury balance is non-negative after every sequence of
transactions, and when the requested amount exceeds the balance both
`authorize_payment` and `distribute_revenue` fail with the
insufficient-balance error and leave the state unchanged. -/
theorem treasury_balance_safety :
    (∀ ops : List Treasury.Op, 0 ≤ (Treasury.run ops).total_balance)
    ∧ (∀ (s : Treasury.State) (sender now recipient amount : Nat) (purpose : String),
        s.is_initialized = true → s.is_paused = false → 0 < amount →
        s.total_balance < (amount : Int) →
        Treasury.authorize_payment s sender now recipient amount purpose
            = .error "Insufficient treasury balance"
        ∧ Treasury.step s (.authorize sender now recipient amount purpose) = s)
    ∧ (∀ (s : Treasury.State) (amount : Nat) (ms : String),
        s.is_initialized = true → s.is_paused = false → 0 < amount →
        s.total_balance < (amount : Int) →
        Treasury.distribute_revenue s amount ms = .error "Insufficient treasury balance"
        ∧ Treasury.step s (.distribute amount ms) = s) := by
  refine ⟨?_, ?_, ?_⟩
  · intro ops
    have main : ∀ (l : List Treasury.Op) (s : Treasury.State),
        0 ≤ s.total_balance → 0 ≤ (l.foldl Treasury.step s).total_balance := by
      intro l
      induction l with
      | nil => intro s h; exact h
      | cons op rest ih =>
        intro s h
        exact ih (Treasury.step s op) (Treasury.step_balance_nonneg s op h)
    exact main ops Treasury.emptyState le_rfl
  · intro s sender now recipient amount purpose hinit hpause hpos hlt
    have hnle : ¬ ((amount : Int) ≤ s.total_balance) := not_le.mpr hlt
    have herr : Treasury.authorize_payment s sender now recipient amount purpose
        = .error "Insufficient treasury balance" := by
      simp [Treasury.authorize_payment, hinit, hpause, hpos, hnle]
    exact ⟨herr, by simp [Treasury.step, herr]⟩
  · intro s amount ms hinit hpause hpos hlt
    have hnle : ¬ ((amount : Int) ≤ s.total_balance) := not_le.mpr hlt
    have herr : Treasury.distribute_revenue s amount ms
        = .error "Insufficient treasury balance" := by
      simp [Treasury.distribute_revenue, hinit, hpause, hpos, hnle]
    exact ⟨herr, by simp [Treasury.step, herr]⟩

/-- C4 witness: on the freshly initialized treasury (balance 0), requesting
1 µALGO fails with the insufficient-balance error in both methods. -/
theorem treasury_balance_safety_witness :
    0 ≤ (Treasury.run []).total_balance
    ∧ Treasury.authorize_payment witTre 7 0 8 1 "grant"
        = .error "Insufficient treasury balance"
    ∧ Treasury.distribute_revenue witTre 1 "[]"
        = .error "Insufficient treasury balance" :=
  ⟨treasury_balance_safety.1 [],
   (treasury_balance_safety.2.1 witTre 7 0 8 1 "grant" rfl rfl (by decide)
      (by decide)).1,
   (treasury_balance_safety.2.2 witTre 1 "[]" rfl rfl (by decide) (by decide)).1⟩

/-! ## C7 -/

/-- C7 counterexample: while the treasury is paused, `set_revenue_share`
(which lacks the pause check) still succeeds and mutates the revenue-share
box, so it is not the case that every mutating operation other than
`emergency_unpause`/`emergency_withdraw` fails while paused. -/
theorem treasury_pause_cex :
    pausedTre.is_paused = true
    ∧ (resOf (Treasury.set_revenue_share pausedTre 5 2500)).map
          (fun s => s.revenue_shares 5)
        = some (some { member := 5, share_percentage := 2500,
                       total_received := 0, last_distribution := 0 })
    ∧ pausedTre.revenue_shares 5 = none :=
  ⟨rfl, rfl, rfl⟩

/-- C7 amended: while the treasury is paused, `receive_funds`,
`authorize_payment` and `distribute_revenue` fail with the paused error and
leave the state unchanged, while `set_revenue_share` (missing the pause
check in the source), `emergency_unpause` and `emergency_withdraw` by the
admin can succeed. -/
theorem treasury_pause_blocks (s : Treasury.State)
    (hinit : s.is_initialized = true) (hp : s.is_paused = true) :
    (∀ sender now app p purpose,
      Treasury.receive_funds s sender now app p purpose = .error "Treasury is paused"
      ∧ Treasury.step s (.receive sender now app p purpose) = s)
    ∧ (∀ sender now r a purpose,
      Treasury.authorize_payment s sender now r a purpose = .error "Treasury is paused"
      ∧ Treasury.step s (.authorize sender now r a purpose) = s)
    ∧ (∀ a ms,
      Treasury.distribute_revenue s a ms = .error "Treasury is paused"
      ∧ Treasury.step s (.distribute a ms) = s)
    ∧ (∀ m pct, pct ≤ 10000 → okb (Treasury.set_revenue_share s m pct) = true)
    ∧ okb (Treasury.emergency_unpause s s.emergency_admin) = true
    ∧ (∀ (r a : Nat), (a : Int) ≤ s.total_balance →
        okb (Treasury.emergency_withdraw s s.emergency_admin r a) = true) := by
  refine ⟨?_, ?_, ?_, ?_, ?_, ?_⟩
  · intro sender now app p purpose
    have herr : Treasury.receive_funds s sender now app p purpose
        = .error "Treasury is paused" := by
      simp [Treasury.receive_funds, hinit, hp]
    exact ⟨herr, by simp [Treasury.step, herr]⟩
  · intro sender now r a purpose
    have herr : Treasury.authorize_payment s sender now r a purpose
        = .error "Treasury is paused" := by
      simp [Treasury.authorize_payment, hinit, hp]
    exact ⟨herr, by simp [Treasury.step, herr]⟩
  · intro a ms
    have herr : Treasury.distribute_revenue s a ms
        = .error "Treasury is paused" := by
      simp [Treasury.distribute_revenue, hinit, hp]
    exact ⟨herr, by simp [Treasury.step, herr]⟩
  · intro m pct hpct
    cases hm : s.revenue_shares m <;>
      simp [Treasury.set_revenue_share, hinit, hpct, hm, okb]
  · simp [Treasury.emergency_unpause, hinit, okb]
  · intro r a hle
    simp [Treasury.emergency_withdraw, hinit, hle, okb]

/-- C7 amended witness: the pause behaviour evaluated on the concrete paused
treasury `pausedTre`. -/
theorem treasury_pause_blocks_witness :
    Treasury.receive_funds pausedTre 7 0 100
        { sender := 7, receiver := 100, amount := 3 } "deposit"
      = .error "Treasury is paused"
    ∧ okb (Treasury.set_revenue_share pausedTre 5 2500) = true
    ∧ okb (Treasury.emergency_unpause pausedTre pausedTre.emergency_admin) = true
    ∧ okb (Treasury.emergency_withdraw pausedTre pausedTre.emergency_admin 8 5) = true := by
  have h := treasury_pause_blocks pausedTre rfl rfl
  exact ⟨(h.1 7 0 100 { sender := 7, receiver := 100, amount := 3 } "deposit").1,
         h.2.2.2.1 5 2500 (by decide),
         h.2.2.2.2.1,
         h.2.2.2.2.2 8 5 (by decide)⟩

/-! ## Single-vote lemmas for the governance contract -/

/-- Writing via `fset` preserves key presence. -/
theorem fset_isSome {α β : Type} [DecidableEq α] {m : α → Option β} {k' : α}
    (k : α) (v : β) (h : (m k').isSome = true) :
    ((fset m k v) k').isSome = true := by
  by_cases hk : k' = k
  · subst hk
    rw [fset_same]
    rfl
  · rw [fset_other _ _ _ _ hk]
    exact h

namespace Governance

/-- A successful `cast_vote` records the (proposal, voter) key in the vote box. -/
theorem cast_vote_ok_votes {s s' : State} {sender now proposal_id support weight : Nat}
    (h : cast_vote s sender now proposal_id support weight = .ok s') :
    (s'.votes (proposal_id, sender)).isSome = true := by
  unfold cast_vote at h
  split at h
  · exact Except.noConfusion h
  split at h
  · exact Except.noConfusion h
  split at h
  case h_1 => exact Except.noConfusion h
  case h_2 proposal hprop =>
  split at h
  · exact Except.noConfusion h
  split at h
  · exact Except.noConfusion h
  split at h
  · exact Except.noConfusion h
  split at h
  case h_1 => exact Except.noConfusion h
  case h_2 =>
  injection h with h'
  subst h'
  show ((fset s.votes (proposal_id, sender) _) (proposal_id, sender)).isSome = true
  rw [fset_same]
  rfl

/-- A successful `cast_vote` only happens on an initialized contract, and the
resulting state is still initialized. -/
theorem cast_vote_ok_init {s s' : State} {sender now proposal_id support weight : Nat}
    (h : cast_vote s sender now proposal_id support weight = .ok s') :
    s'.is_initialized = true := by
  unfold cast_vote at h
  split at h
  case isTrue => exact Except.noConfusion h
  case isFalse hinit =>
  split at h
  · exact Except.noConfusion h
  split at h
  case h_1 => exact Except.noConfusion h
  case h_2 proposal hprop =>
  split at h
  · exact Except.noConfusion h
  split at h
  · exact Except.noConfusion h
  split at h
  · exact Except.noConfusion h
  split at h
  case h_1 => exact Except.noConfusion h
  case h_2 =>
  injection h with h'
  subst h'
  exact not_not.mp hinit

/-- No governance transaction ever removes a recorded vote. -/
theorem step_votes_mono (s : State) (op : Op) (k : Nat × Nat)
    (h : (s.votes k).isSome = true) : ((step s op).votes k).isSome = true := by
  cases op with
  | initGov a b c d e =>
    simp only [step]
    rcases heq : initialize_governance s a b c d e with e' | s'
    · exact h
    · unfold initialize_governance at heq
      split at heq
      · exact Except.noConfusion heq
      split at heq
      · exact Except.noConfusion heq
      split at heq
      · exact Except.noConfusion heq
      split at heq
      · exact Except.noConfusion heq
      injection heq with heq'
      subst heq'
      exact h
  | create sender now t d e =>
    simp only [step]
    rcases heq : create_proposal s sender now t d e with e' | r
    · exact h
    · unfold create_proposal at heq
      split at heq
      · exact Except.noConfusion heq
      split at heq
      · exact Except.noConfusion heq
      split at heq
      · exact Except.noConfusion heq
      injection heq with heq'
      subst heq'
      exact h
  | cast sender now pid sup w =>
    simp only [step]
    rcases heq : cast_vote s sender now pid sup w with e' | s'
    · exact h
    · unfold cast_vote at heq
      split at heq
      · exact Except.noConfusion heq
      split at heq
      · exact Except.noConfusion heq
      split at heq
      case h_1 => exact Except.noConfusion heq
      case h_2 proposal hprop =>
      split at heq
      · exact Except.noConfusion heq
      split at heq
      · exact Except.noConfusion heq
      split at heq
      · exact Except.noConfusion heq
      split at heq
      case h_1 => exact Except.noConfusion heq
      case h_2 =>
      injection heq with heq'
      subst heq'
      exact fset_isSome _ _ h
  | finalize now pid =>
    simp only [step]
    rcases heq : finalize_proposal s now pid with e' | s'
    · exact h
    · unfold finalize_proposal at heq
      split at heq
      · exact Except.noConfusion heq
      split at heq
      case h_1 => exact Except.noConfusion heq
      case h_2 proposal hprop =>
      split at heq
      · exact Except.noConfusion heq
      split at heq
      · exact Except.noConfusion heq
      injection heq with heq'
      subst heq'
      exact h

/-- No governance transaction ever de-initializes the contract. -/
theorem step_init_mono (s : State) (op : Op) (h : s.is_initialized = true) :
    (step s op).is_initialized = true := by
  cases op with
  | initGov a b c d e =>
    simp only [step]
    rcases heq : initialize_governance s a b c d e with e' | s'
    · exact h
    · exfalso
      unfold initialize_governance at heq
      simp [h] at heq
  | create sender now t d e =>
    simp only [step]
    rcases heq : create_proposal s sender now t d e with e' | r
    · exact h
    · unfold create_proposal at heq
      split at heq
      · exact Except.noConfusion heq
      split at heq
      · exact Except.noConfusion heq
      split at heq
      · exact Except.noConfusion heq
      injection heq with heq'
      subst heq'
      exact h
  | cast sender now pid sup w =>
    simp only [step]
    rcases heq : cast_vote s sender now pid sup w with e' | s'
    · exact h
    · exact cast_vote_ok_init heq
  | finalize now pid =>
    simp only [step]
    rcases heq : finalize_proposal s now pid with e' | s'
    · exact h
    · unfold finalize_proposal at heq
      split at heq
      · exact Except.noConfusion heq
      split at heq
      case h_1 => exact Except.noConfusion heq
      case h_2 proposal hprop =>
      split at heq
      · exact Except.noConfusion heq
      split at heq
      · exact Except.noConfusion heq
      injection heq with heq'
      subst heq'
      exact h

/-- Vote presence persists across any tail of transactions. -/
theorem foldl_votes_mono (ops : List Op) (s : State) (k : Nat × Nat)
    (h : (s.votes k).isSome = true) :
    ((ops.foldl step s).votes k).isSome = true := by
  induction ops generalizing s with
  | nil => exact h
  | cons op rest ih => exact ih (step s op) (step_votes_mono s op k h)

/-- Initialization persists across any tail of transactions. -/
theorem foldl_init_mono (ops : List Op) (s : State) (h : s.is_initialized = true) :
    (ops.foldl step s).is_initialized = true := by
  induction ops generalizing s with
  | nil => exact h
  | cons op rest ih => exact ih (step s op) (step_init_mono s op h)

/-- With the vote key present, `cast_vote` never succeeds. -/
theorem cast_vote_voted_not_ok (s : State) (sender now proposal_id support weight : Nat)
    (h : (s.votes (proposal_id, sender)).isSome = true) :
    okb (cast_vote s sender now proposal_id support weight) = false := by
  unfold cast_vote
  split
  · rfl
  split
  · rfl
  split
  case h_1 => rfl
  case h_2 proposal hprop =>
  split
  · rfl
  split
  · rfl
  split
  · rfl
  split
  case h_1 => rfl
  case h_2 hnone =>
  rw [hnone] at h
  exact absurd h (by simp)

/-- With the vote key present and every other precondition satisfied,
`cast_vote` fails with exactly the already-voted error. -/
theorem cast_vote_voted_error (s : State) (sender now proposal_id support weight : Nat)
    (p : Proposal) (v : Vote)
    (hinit : s.is_initialized = true) (hsup : support ≤ 2)
    (hex : s.proposals proposal_id = some p)
    (hvs : now ≥ p.voting_start) (hve : now ≤ p.voting_end)
    (hstat : p.status = "pending" ∨ p.status = "active")
    (hv : s.votes (proposal_id, sender) = some v) :
    cast_vote s sender now proposal_id support weight
      = .error "Already voted on this proposal" := by
  simp [cast_vote, hinit, hsup, hex, hvs, hve, hstat, hv]

/-- A failed `cast_vote` transaction leaves the chain state unchanged. -/
theorem step_cast_self (s : State) (sender now proposal_id support weight : Nat)
    (h : okb (cast_vote s sender now proposal_id support weight) = false) :
    step s (.cast sender now proposal_id support weight) = s := by
  simp only [step]
  rcases heq : cast_vote s sender now proposal_id support weight with e | s'
  · rfl
  · rw [heq] at h
    exact absurd h (by simp [okb])

end Governance

/-! ## C2 -/

/-- C2: once a `cast_vote` by a voter on a proposal succeeds, no later
`cast_vote` by the same voter on the same proposal ever succeeds again — at
any later point of any transaction sequence it fails (leaving the state, and
hence the tallies, unchanged), and when all other preconditions hold it fails
with exactly the already-voted (conflict) error. -/
theorem governance_single_vote (s : Governance.State)
    (sender now proposal_id support weight : Nat) (s' : Governance.State)
    (ops : List Governance.Op)
    (h : Governance.cast_vote s sender now proposal_id support weight = .ok s') :
    (∀ now' support' weight',
      okb (Governance.cast_vote (ops.foldl Governance.step s')
            sender now' proposal_id support' weight') = false
      ∧ Governance.step (ops.foldl Governance.step s')
            (.cast sender now' proposal_id support' weight')
          = ops.foldl Governance.step s')
    ∧ (∀ now' support' weight' (p : Governance.Proposal),
      (ops.foldl Governance.step s').proposals proposal_id = some p →
      support' ≤ 2 → now' ≥ p.voting_start → now' ≤ p.voting_end →
      (p.status = "pending" ∨ p.status = "active") →
      Governance.cast_vote (ops.foldl Governance.step s')
          sender now' proposal_id support' weight'
        = .error "Already voted on this proposal") := by
  have hkey := Governance.foldl_votes_mono ops s' (proposal_id, sender)
    (Governance.cast_vote_ok_votes h)
  have hinitT := Governance.foldl_init_mono ops s' (Governance.cast_vote_ok_init h)
  refine ⟨?_, ?_⟩
  · intro now' support' weight'
    have hnok := Governance.cast_vote_voted_not_ok _ sender now' proposal_id
      support' weight' hkey
    exact ⟨hnok, Governance.step_cast_self _ sender now' proposal_id
      support' weight' hnok⟩
  · intro now' support' weight' p hp hsup hvs hve hstat
    obtain ⟨v, hv⟩ := Option.isSome_iff_exists.mp hkey
    exact Governance.cast_vote_voted_error _ sender now' proposal_id support'
      weight' p v hinitT hsup hp hvs hve hstat hv

/-- A governance state with one pending proposal 1 (voting window [0,100])
and no votes yet. -/
def witGov : Governance.State where
  proposal_count := 1
  voting_delay := 0
  voting_period := 100
  proposal_threshold := 0
  quorum_percentage := 50
  proposals := fset (fun _ => none) 1
    { id := 1
      title := "t"
      description := "d"
      creator := 7
      created_at := 0
      voting_start := 0
      voting_end := 100
      votes_for := 0
      votes_against := 0
      votes_abstain := 0
      status := "pending"
      execution_data := "" }
  votes := fun _ => none
  dao_contract := 1
  is_initialized := true

/-- The state `witGov` after voter 7 casts a weight-10 for-vote on proposal 1. -/
def witGov2 : Governance.State :=
  { witGov with
      votes := fset witGov.votes (1, 7)
        { voter := 7, proposal_id := 1, support := 1, weight := 10, timestamp := 5 }
      proposals := fset witGov.proposals 1
        { id := 1
          title := "t"
          description := "d"
          creator := 7
          created_at := 0
          voting_start := 0
          voting_end := 100
          votes_for := 10
          votes_against := 0
          votes_abstain := 0
          status := "active"
          execution_data := "" } }

/-- C2 witness: voter 7 votes once on proposal 1 of `witGov`; a second
attempt (still inside the voting window) fails with the already-voted error
and does not change the state. -/
theorem governance_single_vote_witness :
    okb (Governance.cast_vote (([] : List Governance.Op).foldl Governance.step witGov2)
          7 6 1 2 3) = false
    ∧ Governance.cast_vote (([] : List Governance.Op).foldl Governance.step witGov2)
          7 6 1 2 3
        = .error "Already voted on this proposal" := by
  have h := governance_single_vote witGov 7 5 1 1 10 witGov2 [] (by rfl)
  refine ⟨(h.1 6 2 3).1, ?_⟩
  exact h.2 6 2 3
    { id := 1
      title := "t"
      description := "d"
      creator := 7
      created_at := 0
      voting_start := 0
      voting_end := 100
      votes_for := 10
      votes_against := 0
      votes_abstain := 0
      status := "active"
      execution_data := "" }
    rfl (by decide) (by decide) (by decide) (Or.inr rfl)

/-! ## License-usage lemmas for the NFT contract -/

namespace NFT

/-- The license-usage invariant: every stored license with a nonzero
`usage_limit` has `usage_count` within that limit. -/
def LicInv (s : State) : Prop :=
  ∀ (id : Nat) (lic : ModeratorLicense), s.licenses id = some lic →
    0 < lic.usage_limit → lic.usage_count ≤ lic.usage_limit

/-- Every NFT-contract transaction preserves the license-usage invariant. -/
theorem step_lic_inv (s : State) (op : Op) (h : LicInv s) : LicInv (step s op) := by
  cases op with
  | initNft a b =>
    simp only [step]
    rcases heq : initialize_nft_contract s a b with e | s'
    · exact h
    · unfold initialize_nft_contract at heq
      split at heq
      · exact Except.noConfusion heq
      split at heq
      · exact Except.noConfusion heq
      split at heq
      · exact Except.noConfusion heq
      injection heq with heq'
      subst heq'
      exact h
  | createNft sender now n d c i dao =>
    simp only [step]
    rcases heq : create_moderator_nft s sender now n d c i dao with e | r
    · exact h
    · unfold create_moderator_nft at heq
      split at heq
      · exact Except.noConfusion heq
      split at heq
      · exact Except.noConfusion heq
      split at heq
      · exact Except.noConfusion heq
      split at heq
      · exact Except.noConfusion heq
      split at heq
      · exact Except.noConfusion heq
      injection heq with heq'
      subst heq'
      exact h
  | purchase sender now app nftId lt dd ul p =>
    simp only [step]
    rcases heq : purchase_license s sender now app nftId lt dd ul p with e | r
    · exact h
    · unfold purchase_license at heq
      split at heq
      · exact Except.noConfusion heq
      split at heq
      case h_1 => exact Except.noConfusion heq
      case h_2 nft hnft =>
      split at heq
      · exact Except.noConfusion heq
      split at heq
      · exact Except.noConfusion heq
      split at heq
      · exact Except.noConfusion heq
      split at heq
      · exact Except.noConfusion heq
      rcases hu : s.user_licenses (sender, nftId) with _ | lid0
      · rw [hu] at heq
        dsimp only [] at heq
        split at heq
        · exact Except.noConfusion heq
        injection heq with heq'
        subst heq'
        intro id lic hlic hpos
        rcases fset_cases hlic with hnew | hold
        · subst hnew
          exact Nat.zero_le _
        · exact h id lic hold hpos
      · rw [hu] at heq
        dsimp only [] at heq
        split at heq
        · exact Except.noConfusion heq
        injection heq with heq'
        subst heq'
        intro id lic hlic hpos
        rcases fset_cases hlic with hnew | hold
        · subst hnew
          exact Nat.zero_le _
        · exact h id lic hold hpos
  | use sender now nftId =>
    simp only [step]
    rcases heq : use_moderator s sender now nftId with e | s'
    · exact h
    · unfold use_moderator at heq
      split at heq
      · exact Except.noConfusion heq
      split at heq
      case h_1 => exact Except.noConfusion heq
      case h_2 nft hnft =>
      split at heq
      · exact Except.noConfusion heq
      rcases hu : s.user_licenses (sender, nftId) with _ | license_id
      · rw [hu] at heq
        exact Except.noConfusion heq
      · rw [hu] at heq
        dsimp only [] at heq
        split at heq
        · exact Except.noConfusion heq
        split at heq
        · exact Except.noConfusion heq
        split at heq
        case isTrue => exact Except.noConfusion heq
        case isFalse husage =>
        injection heq with heq'
        subst heq'
        intro id lic hlic hpos
        rcases fset_cases hlic with hnew | hold
        · subst hnew
          rcases not_and_or.mp husage with ha | hb
          · exact absurd (by simpa using hpos) ha
          · have hlt := not_not.mp hb
            dsimp only at hpos ⊢
            omega
        · exact h id lic hold hpos

/-- A failed `use_moderator` transaction leaves the chain state unchanged. -/
theorem step_use_self (s : State) (sender now nftId : Nat)
    (h : okb (use_moderator s sender now nftId) = false) :
    step s (.use sender now nftId) = s := by
  simp only [step]
  rcases heq : use_moderator s sender now nftId with e | s'
  · rfl
  · rw [heq] at h
    exact absurd h (by simp [okb])

end NFT

/-! ## C6 -/

/-- C6: in every reachable NFT-contract state, every stored license with a
nonzero `usage_limit` satisfies `usage_count ≤ usage_limit`; a `use_moderator`
call that would exceed the limit fails and changes nothing, and once the
clock is strictly past a nonzero `end_date` the call never succeeds. -/
theorem nft_license_usage_bound :
    (∀ (ops : List NFT.Op) (id : Nat) (lic : NFT.ModeratorLicense),
      (NFT.run ops).licenses id = some lic → 0 < lic.usage_limit →
      lic.usage_count ≤ lic.usage_limit)
    ∧ (∀ (s : NFT.State) (sender now nftId lid : Nat) (lic : NFT.ModeratorLicense),
      s.user_licenses (sender, nftId) = some lid → s.licenses lid = some lic →
      0 < lic.usage_limit → lic.usage_limit ≤ lic.usage_count →
      okb (NFT.use_moderator s sender now nftId) = false
      ∧ NFT.step s (.use sender now nftId) = s)
    ∧ (∀ (s : NFT.State) (sender now nftId lid : Nat) (lic : NFT.ModeratorLicense),
      s.user_licenses (sender, nftId) = some lid → s.licenses lid = some lic →
      0 < lic.end_date → lic.end_date < now →
      okb (NFT.use_moderator s sender now nftId) = false
      ∧ NFT.step s (.use sender now nftId) = s) := by
  have main : ∀ (s : NFT.State) (sender now nftId lid : Nat)
      (lic : NFT.ModeratorLicense),
      s.user_licenses (sender, nftId) = some lid → s.licenses lid = some lic →
      ((0 < lic.usage_limit ∧ lic.usage_limit ≤ lic.usage_count)
        ∨ (0 < lic.end_date ∧ lic.end_date < now)) →
      okb (NFT.use_moderator s sender now nftId) = false := by
    intro s sender now nftId lid lic hul hlic hbad
    unfold NFT.use_moderator
    split
    · rfl
    split
    case h_1 => rfl
    case h_2 nft hnft =>
    split
    · rfl
    split
    case h_1 => rfl
    case h_2 license_id hlid' =>
    rw [hul] at hlid'
    injection hlid' with hlid''
    subst hlid''
    rw [hlic]
    dsimp only [Option.getD]
    split
    · rfl
    split
    · rfl
    split
    · rfl
    case isFalse hexp husage =>
    exfalso
    rcases hbad with ⟨h1, h2⟩ | ⟨h1, h2⟩
    · exact husage ⟨h1, by omega⟩
    · exact hexp ⟨h1, by omega⟩
  refine ⟨?_, ?_, ?_⟩
  · intro ops
    have run_inv : ∀ (l : List NFT.Op) (s : NFT.State),
        NFT.LicInv s → NFT.LicInv (l.foldl NFT.step s) := by
      intro l
      induction l with
      | nil => intro s h; exact h
      | cons op rest ih => intro s h; exact ih (NFT.step s op) (NFT.step_lic_inv s op h)
    exact run_inv ops NFT.emptyState (fun id lic hlic _ => Option.noConfusion hlic)
  · intro s sender now nftId lid lic hul hlic h1 h2
    have hnok := main s sender now nftId lid lic hul hlic (Or.inl ⟨h1, h2⟩)
    exact ⟨hnok, NFT.step_use_self s sender now nftId hnok⟩
  · intro s sender now nftId lid lic hul hlic h1 h2
    have hnok := main s sender now nftId lid lic hul hlic (Or.inr ⟨h1, h2⟩)
    exact ⟨hnok, NFT.step_use_self s sender now nftId hnok⟩

/-- Trace: create an NFT, buy a 5-use license, use it once. -/
def c6Ops : List NFT.Op :=
  [ .initNft 1 2,
    .createNft 7 100 "mod" "desc" "cat" "hash" 1,
    .purchase 8 100 50 1 "subscription" 0 5
      { sender := 8, receiver := 50, amount := 1000 },
    .use 8 101 1 ]

/-- Trace: create an NFT, buy a 1-use license, use it once (limit reached). -/
def c6OpsLimit : List NFT.Op :=
  [ .initNft 1 2,
    .createNft 7 100 "mod" "desc" "cat" "hash" 1,
    .purchase 8 100 50 1 "pay_per_use" 0 1
      { sender := 8, receiver := 50, amount := 1000 },
    .use 8 101 1 ]

/-- Trace: create an NFT and buy a 1-day license (expires at 100 + 86400). -/
def c6OpsExpiry : List NFT.Op :=
  [ .initNft 1 2,
    .createNft 7 100 "mod" "desc" "cat" "hash" 1,
    .purchase 8 100 50 1 "subscription" 1 0
      { sender := 8, receiver := 50, amount := 1000 } ]

/-- C6 witness: the invariant holds on the concrete trace `c6Ops`; on
`c6OpsLimit` the exhausted license makes `use_moderator` fail; on
`c6OpsExpiry` using the moderator past the end date fails. -/
theorem nft_license_usage_bound_witness :
    ({ nft_id := 1, licensee := 8, license_type := "subscription",
       start_date := 100, end_date := 0, usage_limit := 5, usage_count := 1,
       amount_paid := 1000, is_active := true } : NFT.ModeratorLicense).usage_count
      ≤ ({ nft_id := 1, licensee := 8, license_type := "subscription",
           start_date := 100, end_date := 0, usage_limit := 5, usage_count := 1,
           amount_paid := 1000, is_active := true } : NFT.ModeratorLicense).usage_limit
    ∧ okb (NFT.use_moderator (NFT.run c6OpsLimit) 8 102 1) = false
    ∧ okb (NFT.use_moderator (NFT.run c6OpsExpiry) 8 86501 1) = false := by
  refine ⟨?_, ?_, ?_⟩
  · exact nft_license_usage_bound.1 c6Ops 1
      { nft_id := 1, licensee := 8, license_type := "subscription",
        start_date := 100, end_date := 0, usage_limit := 5, usage_count := 1,
        amount_paid := 1000, is_active := true }
      (by rfl) (by decide)
  · exact (nft_license_usage_bound.2.1 (NFT.run c6OpsLimit) 8 102 1 1
      { nft_id := 1, licensee := 8, license_type := "pay_per_use",
        start_date := 100, end_date := 0, usage_limit := 1, usage_count := 1,
        amount_paid := 1000, is_active := true }
      (by rfl) (by rfl) (by decide) (by decide)).1
  · exact (nft_license_usage_bound.2.2 (NFT.run c6OpsExpiry) 8 86501 1 1
      { nft_id := 1, licensee := 8, license_type := "subscription",
        start_date := 100, end_date := 86500, usage_limit := 0, usage_count := 0,
        amount_paid := 1000, is_active := true }
      (by rfl) (by rfl) (by decide) (by decide)).1

/-! ## Concrete states and traces used by the theorems -/

/-- A governance state with one active proposal whose voting period is over:
one single vote of weight 1 was cast for it, so the weighted turnout is 1,
which cannot meet any quorum percentage `q` of any eligible stake of 2 or
more. -/
def lowTurnoutGov (q : Nat) : Governance.State where
  proposal_count := 1
  voting_delay := 0
  voting_period := 3600
  proposal_threshold := 0
  quorum_percentage := q
  proposals := fset (fun _ => none) 1
    { id := 1
      title := "t"
      description := "d"
      creator := 7
      created_at := 0
      voting_start := 0
      voting_end := 10
      votes_for := 1
      votes_against := 0
      votes_abstain := 0
      status := "active"
      execution_data := "" }
  votes := fset (fun _ => none) (1, 7)
    { voter := 7, proposal_id := 1, support := 1, weight := 1, timestamp := 1 }
  dao_contract := 1
  is_initialized := true

/-- A monolithic-DAO state holding DAO 1 with `min_members = 2` and
`activation_threshold = 51`, whose creator (address 7) is a member. -/
def c5State : MonoDAO.State where
  dao_configs := fset (fun _ => none) 1
    { min_members := 2
      min_stake := 100000
      voting_period := 86400
      activation_threshold := 51
      creator := 7 }
  proposals := fun _ => none
  member_stakes := fset (fun _ => none) (1, 7) 100000
  votes := fun _ => none
  treasury_balances := fset (fun _ => none) 1 100000
  dao_counter := 1
  proposal_counter := 0

/-- A monolithic-DAO state with an active proposal 1 (`required_votes = 1`,
no votes yet) of DAO 1, whose member is address 7. -/
def witMono : MonoDAO.State where
  dao_configs := fset (fun _ => none) 1
    { min_members := 2
      min_stake := 100000
      voting_period := 86400
      activation_threshold := 51
      creator := 7 }
  proposals := fset (fun _ => none) 1
    { dao_id := 1
      title := "t"
      description := "d"
      creator := 7
      required_votes := 1
      current_votes := 0
      status := "active"
      created_at := 0 }
  member_stakes := fset (fun _ => none) (1, 7) 100000
  votes := fun _ => none
  treasury_balances := fset (fun _ => none) 1 100000
  dao_counter := 1
  proposal_counter := 1

/-! ## C8 -/

/-- C8: the monolithic `vote_on_proposal` imposes no time window — its result
is the same for every value of the clock (it never reads `voting_period` or
`created_at`), it succeeds whenever the proposal is `active`, the sender is a
member and has not voted, and a yes vote that reaches `required_votes` flips
the status to `passed` inside the very same call. -/
theorem mono_vote_no_time_window (s : MonoDAO.State) (sender proposal_id : Nat)
    (b : Bool) (pd : MonoDAO.ProposalData)
    (hex : s.proposals proposal_id = some pd)
    (hact : pd.status = "active")
    (hmem : (s.member_stakes (pd.dao_id, sender)).isSome = true)
    (hnv : s.votes (proposal_id, sender) = none) :
    (∀ now now', MonoDAO.vote_on_proposal s sender now proposal_id b
        = MonoDAO.vote_on_proposal s sender now' proposal_id b)
    ∧ (∀ now, okb (MonoDAO.vote_on_proposal s sender now proposal_id b) = true)
    ∧ (∀ now s', MonoDAO.vote_on_proposal s sender now proposal_id b = .ok s' →
        b = true → pd.required_votes ≤ pd.current_votes + 1 →
        (s'.proposals proposal_id).map MonoDAO.ProposalData.status = some "passed") := by
  obtain ⟨st, hst⟩ := Option.isSome_iff_exists.mp hmem
  refine ⟨?_, ?_, ?_⟩
  · intro now now'
    rfl
  · intro now
    simp [MonoDAO.vote_on_proposal, hex, hact, hst, hnv, okb]
  · intro now s' hv hb hreq
    subst hb
    simp [MonoDAO.vote_on_proposal, hex, hact, hst, hnv, hreq] at hv
    subst hv
    simp [fset_same]

/-- C8 witness: on `witMono` a yes vote at clock value 12345 equals the
same vote at 999999, succeeds, and flips the proposal to `passed`. -/
theorem mono_vote_no_time_window_witness :
    okb (MonoDAO.vote_on_proposal witMono 7 12345 1 true) = true
    ∧ MonoDAO.vote_on_proposal witMono 7 12345 1 true
        = MonoDAO.vote_on_proposal witMono 7 999999 1 true := by
  have h := mono_vote_no_time_window witMono 7 1 true
    { dao_id := 1
      title := "t"
      description := "d"
      creator := 7
      required_votes := 1
      current_votes := 0
      status := "active"
      created_at := 0 }
    rfl rfl rfl rfl
  exact ⟨h.2.1 12345, h.1 12345 999999⟩

/-! ## C1 -/

/-- C1: `finalize_proposal`, per its own TODO, never consults the configured
quorum: with one single weight-1 vote for (turnout 1), it still marks the
proposal `passed` after the voting period, for every quorum percentage `q`,
contradicting the outcome rule claimed by the spec (`passed` only when the
weighted turnout meets the quorum). -/
theorem governance_finalize_ignores_quorum (q : Nat) :
    (resOf (Governance.finalize_proposal (lowTurnoutGov q) 11 1)).bind
        (fun s => (s.proposals 1).map Governance.Proposal.status)
      = some "passed" := by
  rfl

/-! ## C5 -/

/-- C5 counterexample: for `min_members = 2`, `threshold = 51` the source's
`create_proposal` stores `required_votes = (2 * 51) // 100 = 1`, the floor,
which differs from the claimed ceiling `ceil(2 * 51 / 100) = 2`. -/
theorem mono_required_votes_cex :
    ((resOf (MonoDAO.create_proposal c5State 7 0 1 "t" "d" "c")).bind
        (fun r => (r.1.proposals 1).map MonoDAO.ProposalData.required_votes))
      = some 1
    ∧ MonoDAO.spec_required_votes 2 51 = 2
    ∧ ((resOf (MonoDAO.create_proposal c5State 7 0 1 "t" "d" "c")).bind
        (fun r => (r.1.proposals 1).map MonoDAO.ProposalData.required_votes))
      ≠ some (MonoDAO.spec_required_votes 2 51) := by
  refine ⟨rfl, rfl, ?_⟩
  decide

/-- C5 amended: `create_proposal` stores
`required_votes = (min_members * activation_threshold) / 100` rounded
*down* (AVM integer division), not up. -/
theorem mono_required_votes_floor (s : MonoDAO.State) (sender now dao_id : Nat)
    (t d c : String) (cfg : MonoDAO.DAOConfig)
    (hcfg : s.dao_configs dao_id = some cfg)
    (hmem : (s.member_stakes (dao_id, sender)).isSome) :
    ((resOf (MonoDAO.create_proposal s sender now dao_id t d c)).bind
        (fun r => (r.1.proposals (s.proposal_counter + 1)).map
          MonoDAO.ProposalData.required_votes))
      = some (cfg.min_members * cfg.activation_threshold / 100) := by
  obtain ⟨st, hst⟩ := Option.isSome_iff_exists.mp hmem
  simp [MonoDAO.create_proposal, hcfg, hst, resOf, fset_same]

/-- C5 amended witness: the floor statement evaluated on `c5State`. -/
theorem mono_required_votes_floor_witness :
    ((resOf (MonoDAO.create_proposal c5State 7 0 1 "t" "d" "c")).bind
        (fun r => (r.1.proposals (c5State.proposal_counter + 1)).map
          MonoDAO.ProposalData.required_votes))
      = some (2 * 51 / 100) :=
  mono_required_votes_floor c5State 7 0 1 "t" "d" "c"
    { min_members := 2
      min_stake := 100000
      voting_period := 86400
      activation_threshold := 51
      creator := 7 }
    rfl rfl

/-! ## C9 -/

/-- C9: every successful purchase (hourly, monthly, buyout) splits the paid
amount exactly: the inner payment to the moderator owner is
`amount * 90 / 100`, the contract keeps `amount - amount * 90 / 100` in
`total_revenue`, and the two parts always sum back to the amount. -/
theorem purchase_split_exact :
    (∀ (s : Purchase.State) (sender now app : Nat) (payment : PaymentTxn)
        (hours : Nat) (s' : Purchase.State) (out : Purchase.PaymentOut),
      Purchase.purchase_hourly_access s sender now app payment hours = .ok (s', out) →
      out.amount = payment.amount * 90 / 100
      ∧ out.receiver = s.moderator_owner
      ∧ s'.total_revenue = s.total_revenue + (payment.amount - payment.amount * 90 / 100)
      ∧ out.amount + (payment.amount - payment.amount * 90 / 100) = payment.amount)
    ∧ (∀ (s : Purchase.State) (sender now app : Nat) (payment : PaymentTxn)
        (months : Nat) (s' : Purchase.State) (out : Purchase.PaymentOut),
      Purchase.purchase_monthly_license s sender now app payment months = .ok (s', out) →
      out.amount = payment.amount * 90 / 100
      ∧ out.receiver = s.moderator_owner
      ∧ s'.total_revenue = s.total_revenue + (payment.amount - payment.amount * 90 / 100)
      ∧ out.amount + (payment.amount - payment.amount * 90 / 100) = payment.amount)
    ∧ (∀ (s : Purchase.State) (sender now app : Nat) (payment : PaymentTxn)
        (s' : Purchase.State) (out : Purchase.PaymentOut),
      Purchase.buyout_moderator s sender now app payment = .ok (s', out) →
      out.amount = payment.amount * 90 / 100
      ∧ out.receiver = s.moderator_owner
      ∧ s'.total_revenue = s.total_revenue + (payment.amount - payment.amount * 90 / 100)
      ∧ out.amount + (payment.amount - payment.amount * 90 / 100) = payment.amount) := by
  refine ⟨?_, ?_, ?_⟩
  · intro s sender now app payment hours s' out h
    simp only [Purchase.purchase_hourly_access] at h
    split at h
    · exact Except.noConfusion h
    split at h
    · exact Except.noConfusion h
    split at h
    · exact Except.noConfusion h
    split at h
    · exact Except.noConfusion h
    injection h with hp
    injection hp with h1 h2
    subst h1; subst h2
    refine ⟨rfl, rfl, rfl, ?_⟩
    show payment.amount * 90 / 100 + (payment.amount - payment.amount * 90 / 100)
      = payment.amount
    omega
  · intro s sender now app payment months s' out h
    simp only [Purchase.purchase_monthly_license] at h
    split at h
    · exact Except.noConfusion h
    split at h
    · exact Except.noConfusion h
    split at h
    · exact Except.noConfusion h
    split at h
    · exact Except.noConfusion h
    injection h with hp
    injection hp with h1 h2
    subst h1; subst h2
    refine ⟨rfl, rfl, rfl, ?_⟩
    show payment.amount * 90 / 100 + (payment.amount - payment.amount * 90 / 100)
      = payment.amount
    omega
  · intro s sender now app payment s' out h
    simp only [Purchase.buyout_moderator] at h
    split at h
    · exact Except.noConfusion h
    split at h
    · exact Except.noConfusion h
    split at h
    · exact Except.noConfusion h
    split at h
    · exact Except.noConfusion h
    split at h
    · exact Except.noConfusion h
    injection h with hp
    injection hp with h1 h2
    subst h1; subst h2
    refine ⟨rfl, rfl, rfl, ?_⟩
    show payment.amount * 90 / 100 + (payment.amount - payment.amount * 90 / 100)
      = payment.amount
    omega

/-- C9 witness: the hourly split evaluated on a concrete purchase of 2 hours
at 1 ALGO/hour paid with 2000001 microAlgos: 1800000 to the owner and
200001 kept, summing back to 2000001. -/
theorem purchase_split_exact_witness :
    Purchase.purchase_hourly_access (Purchase.create_moderator 3 4 1 10 100)
        5 0 50 { sender := 5, receiver := 50, amount := 2000001 } 2
      = .ok ({ Purchase.create_moderator 3 4 1 10 100 with
                hours_remaining := Purchase.lset (fun _ => 0) 5 2
                user_access_type := Purchase.lset (fun _ => 0) 5 1
                total_spent := Purchase.lset (fun _ => 0) 5 2000001
                total_transactions := 1
                total_revenue := 200001
                total_users := 1 },
             { receiver := 4, amount := 1800000 })
    ∧ (1800000 : Nat) = 2000001 * 90 / 100
    ∧ (1800000 : Nat) + (2000001 - 2000001 * 90 / 100) = 2000001 := by
  refine ⟨rfl, rfl, ?_⟩
  have h := (purchase_split_exact.1 (Purchase.create_moderator 3 4 1 10 100)
    5 0 50 { sender := 5, receiver := 50, amount := 2000001 } 2
    ({ Purchase.create_moderator 3 4 1 10 100 with
        hours_remaining := Purchase.lset (fun _ => 0) 5 2
        user_access_type := Purchase.lset (fun _ => 0) 5 1
        total_spent := Purchase.lset (fun _ => 0) 5 2000001
        total_transactions := 1
        total_revenue := 200001
        total_users := 1 })
    { receiver := 4, amount := 1800000 } rfl)
  exact h.2.2.2

/-! ## C10 -/

/-- C10: before initialization the readonly queries `get_balance`,
`get_total_distributed`, `get_payment_count` (treasury) and
`get_proposal_count`, `has_voted` (governance) return zero / false for every
input instead of failing. -/
theorem uninitialized_readonly_defaults (t : Treasury.State)
    (g : Governance.State) (ht : t.is_initialized = false)
    (hg : g.is_initialized = false) :
    Treasury.get_balance t = 0
    ∧ Treasury.get_total_distributed t = 0
    ∧ Treasury.get_payment_count t = 0
    ∧ Governance.get_proposal_count g = 0
    ∧ ∀ pid voter, Governance.has_voted g pid voter = false := by
  refine ⟨?_, ?_, ?_, ?_, ?_⟩ <;>
    simp [Treasury.get_balance, Treasury.get_total_distributed,
      Treasury.get_payment_count, Governance.get_proposal_count,
      Governance.has_voted, ht, hg]

/-- C10 witness: the defaults evaluated on the fresh (uninitialized)
contract states, at proposal 3 and voter 4. -/
theorem uninitialized_readonly_defaults_witness :
    Treasury.get_balance Treasury.emptyState = 0
    ∧ Treasury.get_total_distributed Treasury.emptyState = 0
    ∧ Treasury.get_payment_count Treasury.emptyState = 0
    ∧ Governance.get_proposal_count Governance.emptyState = 0
    ∧ Governance.has_voted Governance.emptyState 3 4 = false := by
  have h := uninitialized_readonly_defaults Treasury.emptyState
    Governance.emptyState rfl rfl
  exact ⟨h.1, h.2.1, h.2.2.1, h.2.2.2.1, h.2.2.2.2 3 4⟩

end CitadelX
